import Mathlib

set_option maxRecDepth 16000

/-!
Shallow embedding of the universal USB monitor service (src/usb_api.py) and
proofs about its format detector, format parsers, sensor normalizer and the
device-monitor state machine.

Conventions of the embedding:
* Python scalar values are modelled by `PyVal`; Python dicts are association
  lists (`PyDict`) with Python insertion semantics (updating an existing key
  keeps its position, a new key is appended).
* Python floats are modelled as rationals: every numeric literal the code
  manipulates is an exact decimal, and no claim depends on binary rounding.
* `json.loads` is modelled by `jsonLoads`, a fuel-driven recursive-descent
  decoder of the JSON grammar (whitespace, objects, arrays, strings with
  escapes, numbers, true/false/null); the NaN/Infinity extensions of the
  Python decoder are not modelled, no claim touches them.
* String utilities are implemented over the character list of a `String`,
  mirroring the Python semantics of strip/split/startswith used by the code.
* External transport and enumeration outcomes (pyserial) are inputs threaded
  through an `Env` record; `random.uniform a b` is modelled as
  `a + (b - a) * Int.fract seed`, the formula of the Python library with
  `Int.fract seed` standing for the `random()` draw in `[0,1)`.
-/

/-- A Python scalar or container value, as produced by the format parsers. -/
inductive PyVal where
  | none
  | bool (b : Bool)
  | int (n : Int)
  | float (q : Rat)
  | str (s : String)
  | list (xs : List PyVal)
  | dict (kvs : List (String × PyVal))

/-- A Python dict with string keys, as an insertion-ordered association list. -/
abbrev PyDict := List (String × PyVal)

/-- Python `d[k] = v`: update the value in place when the key is present
(first occurrence; dicts built by inserts never hold duplicates), append
otherwise. -/
def dictInsert : PyDict → String → PyVal → PyDict
  | [], k, v => [(k, v)]
  | (k0, v0) :: tl, k, v =>
    if k0 = k then (k0, v) :: tl else (k0, v0) :: dictInsert tl k v

/-- Python `d.get(k)` / `d[k]`. -/
def dictGet : PyDict → String → Option PyVal
  | [], _ => Option.none
  | (k0, v0) :: tl, k => if k0 = k then some v0 else dictGet tl k

/-- How many entries of the dict carry the key `k`. -/
def keyCount (d : PyDict) (k : String) : Nat :=
  (d.filter (fun p => decide (p.1 = k))).length

/-- Python truthiness of a value. -/
def pyTruthy : PyVal → Bool
  | PyVal.none => false
  | PyVal.bool b => b
  | PyVal.int n => n != 0
  | PyVal.float q => q != 0
  | PyVal.str s => !s.data.isEmpty
  | PyVal.list xs => !xs.isEmpty
  | PyVal.dict d => !d.isEmpty

/-- Python `a or b` over optional lookups: a missing key or a falsy value
falls through to the right operand. -/
def pyOrElse (a b : Option PyVal) : Option PyVal :=
  match a with
  | some v => if pyTruthy v then some v else b
  | Option.none => b

/-! ## String utilities (character-list models of the Python operations) -/

/-- Python whitespace, as stripped by `str.strip()`. -/
def pyWs (c : Char) : Bool :=
  c = ' ' || c = '\t' || c = '\n' || c = '\r' || c = Char.ofNat 11 || c = Char.ofNat 12

/-- Model of `str.strip()`. -/
def pyStrip (s : String) : String :=
  String.mk (((s.data.dropWhile pyWs).reverse.dropWhile pyWs).reverse)

/-- Does the string contain the character? (Python `c in s`.) -/
def strContains (s : String) (c : Char) : Bool :=
  s.data.any (fun x => x = c)

def charsLeadWith : List Char → List Char → Bool
  | [], _ => true
  | _ :: _, [] => false
  | a :: as, b :: bs => a = b && charsLeadWith as bs

/-- Model of `str.startswith`. -/
def strStartsWith (s p : String) : Bool := charsLeadWith p.data s.data

/-- Model of `str.endswith`. -/
def strEndsWith (s p : String) : Bool := charsLeadWith p.data.reverse s.data.reverse

/-- Split on every occurrence of one character, keeping empty pieces
(Python `str.split(sep)`). -/
def splitCharAux (sep : Char) : List Char → List Char → List String
  | [], cur => [String.mk cur.reverse]
  | c :: rest, cur =>
    if c = sep then String.mk cur.reverse :: splitCharAux sep rest []
    else splitCharAux sep rest (c :: cur)

def splitChar (s : String) (sep : Char) : List String := splitCharAux sep s.data []

/-- Remove every occurrence of a character (Python `s.replace(ch, "")`). -/
def removeChar (s : String) (ch : Char) : String :=
  String.mk (s.data.filter (fun c => c != ch))

/-- Numeric value of decimal digits, most significant first. -/
def digitsToNat (ds : List Char) : Nat :=
  ds.foldl (fun a c => a * 10 + (c.toNat - 48)) 0

/-! ## The JSON decoder (model of `json.loads`) -/

/-- JSON whitespace accepted between tokens by the decoder. -/
def jsonWs (c : Char) : Bool :=
  c = ' ' || c = '\t' || c = '\n' || c = '\r'

def skipWs (cs : List Char) : List Char := cs.dropWhile jsonWs

/-- Value of a hex digit. -/
def hexVal (c : Char) : Nat :=
  if c.isDigit then c.toNat - 48
  else if 'a' ≤ c ∧ c ≤ 'f' then c.toNat - 87
  else if 'A' ≤ c ∧ c ≤ 'F' then c.toNat - 55
  else 0

def isHexDigit (c : Char) : Bool :=
  c.isDigit || ('a' ≤ c && c ≤ 'f') || ('A' ≤ c && c ≤ 'F')

/-- Decode a JSON string body (after the opening quote): characters up to the
closing quote, with the standard backslash escapes.  Raw control characters
are rejected, as by the strict decoder. -/
def jsonStr : Nat → List Char → Option (List Char × List Char)
  | 0, _ => Option.none
  | _ + 1, [] => Option.none
  | fuel + 1, c :: rest =>
    if c = '"' then some ([], rest)
    else if c = '\\' then
      match rest with
      | [] => Option.none
      | e :: r2 =>
        if e = 'u' then
          match r2 with
          | h1 :: h2 :: h3 :: h4 :: r3 =>
            if isHexDigit h1 && isHexDigit h2 && isHexDigit h3 && isHexDigit h4 then
              let n := ((hexVal h1 * 16 + hexVal h2) * 16 + hexVal h3) * 16 + hexVal h4
              (jsonStr fuel r3).map (fun p => (Char.ofNat n :: p.1, p.2))
            else Option.none
          | _ => Option.none
        else
          let esc : Option Char :=
            if e = '"' then some '"'
            else if e = '\\' then some '\\'
            else if e = '/' then some '/'
            else if e = 'b' then some (Char.ofNat 8)
            else if e = 'f' then some (Char.ofNat 12)
            else if e = 'n' then some '\n'
            else if e = 'r' then some '\r'
            else if e = 't' then some '\t'
            else Option.none
          match esc with
          | some ec => (jsonStr fuel r2).map (fun p => (ec :: p.1, p.2))
          | Option.none => Option.none
    else if c.toNat < 32 then Option.none
    else (jsonStr fuel rest).map (fun p => (c :: p.1, p.2))

/-- Apply a decimal exponent to an already-decoded mantissa. -/
def jsonExp (mant : Rat) (cs : List Char) : Option (Rat × List Char) :=
  let (eneg, cs1) :=
    match cs with
    | '-' :: r => (true, r)
    | '+' :: r => (false, r)
    | _ => (false, cs)
  let es := cs1.takeWhile Char.isDigit
  let r2 := cs1.dropWhile Char.isDigit
  if es.isEmpty then Option.none
  else
    let e := digitsToNat es
    let q := if eneg then mant / ((10 : Rat) ^ e) else mant * ((10 : Rat) ^ e)
    some (q, r2)

/-- Decode a JSON number at the head of the input: optional minus, integer
part with no leading zero, optional fraction and exponent.  An integer
literal becomes `PyVal.int`, anything with a fraction or exponent becomes
`PyVal.float`, exactly as the Python decoder distinguishes int and float. -/
def jsonNumber (cs : List Char) : Option (PyVal × List Char) :=
  let (neg, cs1) :=
    match cs with
    | '-' :: r => (true, r)
    | _ => (false, cs)
  let ds := cs1.takeWhile Char.isDigit
  let r1 := cs1.dropWhile Char.isDigit
  if ds.isEmpty then Option.none
  else if 2 ≤ ds.length ∧ ds.head? = some '0' then Option.none
  else
    let ip : Int := digitsToNat ds
    let ipq : Rat := (ip : Rat)
    match r1 with
    | '.' :: r2 =>
      let fs := r2.takeWhile Char.isDigit
      let r3 := r2.dropWhile Char.isDigit
      if fs.isEmpty then Option.none
      else
        let fq : Rat := ipq + (digitsToNat fs : Rat) / ((10 : Rat) ^ fs.length)
        match r3 with
        | 'e' :: r4 => (jsonExp fq r4).map (fun p => (PyVal.float (if neg then -p.1 else p.1), p.2))
        | 'E' :: r4 => (jsonExp fq r4).map (fun p => (PyVal.float (if neg then -p.1 else p.1), p.2))
        | _ => some (PyVal.float (if neg then -fq else fq), r3)
    | 'e' :: r4 => (jsonExp ipq r4).map (fun p => (PyVal.float (if neg then -p.1 else p.1), p.2))
    | 'E' :: r4 => (jsonExp ipq r4).map (fun p => (PyVal.float (if neg then -p.1 else p.1), p.2))
    | _ => some (PyVal.int (if neg then -ip else ip), r1)

/-- One pending piece of JSON input: a value, the members of an object, or
the items of an array.  A single fuel-driven function handles all three, so
that the decoder is structurally recursive and evaluates inside the kernel. -/
inductive JTask where
  | value (cs : List Char)
  | members (cs : List Char) (acc : PyDict)
  | items (cs : List Char) (acc : List PyVal)

/-- The JSON decoding engine. -/
def jsonRun : Nat → JTask → Option (PyVal × List Char)
  | 0, _ => Option.none
  | fuel + 1, JTask.value cs =>
    match skipWs cs with
    | [] => Option.none
    | c :: rest =>
      if c = '{' then
        match skipWs rest with
        | '}' :: r2 => some (PyVal.dict [], r2)
        | r2 => jsonRun fuel (JTask.members r2 [])
      else if c = '[' then
        match skipWs rest with
        | ']' :: r2 => some (PyVal.list [], r2)
        | r2 => jsonRun fuel (JTask.items r2 [])
      else if c = '"' then
        (jsonStr (fuel + 1) rest).map (fun p => (PyVal.str (String.mk p.1), p.2))
      else if c = 't' then
        match rest with
        | 'r' :: 'u' :: 'e' :: r2 => some (PyVal.bool true, r2)
        | _ => Option.none
      else if c = 'f' then
        match rest with
        | 'a' :: 'l' :: 's' :: 'e' :: r2 => some (PyVal.bool false, r2)
        | _ => Option.none
      else if c = 'n' then
        match rest with
        | 'u' :: 'l' :: 'l' :: r2 => some (PyVal.none, r2)
        | _ => Option.none
      else jsonNumber (c :: rest)
  | fuel + 1, JTask.members cs acc =>
    match skipWs cs with
    | '"' :: rest =>
      match jsonStr (fuel + 1) rest with
      | some (k, r2) =>
        match skipWs r2 with
        | ':' :: r3 =>
          match jsonRun fuel (JTask.value r3) with
          | some (v, r4) =>
            match skipWs r4 with
            | ',' :: r5 => jsonRun fuel (JTask.members r5 (dictInsert acc (String.mk k) v))
            | '}' :: r5 => some (PyVal.dict (dictInsert acc (String.mk k) v), r5)
            | _ => Option.none
          | Option.none => Option.none
        | _ => Option.none
      | Option.none => Option.none
    | _ => Option.none
  | fuel + 1, JTask.items cs acc =>
    match jsonRun fuel (JTask.value cs) with
    | some (v, r1) =>
      match skipWs r1 with
      | ',' :: r2 => jsonRun fuel (JTask.items r2 (acc ++ [v]))
      | ']' :: r2 => some (PyVal.list (acc ++ [v]), r2)
      | _ => Option.none
    | Option.none => Option.none

/-- Model of `json.loads`: decode one value and require only trailing
whitespace after it. -/
def jsonLoads (s : String) : Option PyVal :=
  match jsonRun (2 * s.data.length + 8) (JTask.value s.data) with
  | some (v, rest) => if (skipWs rest).isEmpty then some v else Option.none
  | Option.none => Option.none

example : jsonLoads "\x7b\"a\":1\x7d" = some (PyVal.dict [("a", PyVal.int 1)]) := rfl
example : jsonLoads "\x7b\"a\":1,\"b\":2\x7d" =
    some (PyVal.dict [("a", PyVal.int 1), ("b", PyVal.int 2)]) := rfl
example : jsonLoads "\x7b\"t\": 21.5\x7d" =
    some (PyVal.dict [("t", PyVal.float (43/2))]) := by with_unfolding_all rfl
example : jsonLoads "[1, 2]" = some (PyVal.list [PyVal.int 1, PyVal.int 2]) := rfl
example : jsonLoads "\x7b\"a\": \x7b\"b\": 1\x7d\x7d" =
    some (PyVal.dict [("a", PyVal.dict [("b", PyVal.int 1)])]) := rfl
example : jsonLoads "\x7b\"a\":1" = Option.none := rfl
example : jsonLoads "hello" = Option.none := rfl
example : jsonLoads "a,b,c" = Option.none := rfl
example : jsonLoads " true " = some (PyVal.bool true) := rfl
example : jsonLoads "-12e2" = some (PyVal.float (-1200)) := by with_unfolding_all rfl

/-! ## The Format Detector (`USBMonitor._detect_data_format`) -/

/-- Translation of `_detect_data_format`.  The branches mirror the source:
JSON bracket shape plus a successful decode, then the comma test (building a
`csv.reader` never raises, so that branch returns as soon as the comma test
passes), then the separator test, then the printable-ASCII scan. -/
def detect_data_format (data : String) : String :=
  if ((strStartsWith data "\x7b" && strEndsWith data "\x7d")
      || (strStartsWith data "[" && strEndsWith data "]"))
      && (jsonLoads data).isSome then "json"
  else if strContains data ',' && 2 ≤ (splitChar data ',').length then "csv"
  else if strContains data '=' || strContains data ':' then "key_value"
  else if data.data.any (fun c =>
      !(c = '\n' || c = '\r' || c = '\t') && (c.toNat < 32 || 126 < c.toNat)) then "binary"
  else "text"

example : detect_data_format "\x7b\"a\":1\x7d" = "json" := rfl
example : detect_data_format "a,b,c" = "csv" := rfl
example : detect_data_format "a=1;b=2" = "key_value" := rfl
example : detect_data_format "a:1" = "key_value" := rfl
example : detect_data_format (String.mk ['h', 'i', Char.ofNat 1]) = "binary" := rfl
example : detect_data_format "hello world" = "text" := rfl
example : detect_data_format "\x7b\"a\":1,\"b\":2\x7d" = "json" := rfl
example : detect_data_format "\x7b1,2\x7d" = "csv" := rfl

/-! ## The format parsers -/

/-- The leftmost match of the pattern used by `_parse_json_data` to pull a
brace-delimited substring out of mixed data: from the first brace that is
followed by a closing brace, up to the first closing brace after it (the
character class of the pattern cannot cross a closing brace, so the match is
single-level). -/
def extractBrace (d : String) : Option String :=
  match d.data.dropWhile (fun c => c != '{') with
  | [] => Option.none
  | _ :: rest =>
    match rest.dropWhile (fun c => c != '}') with
    | [] => Option.none
    | _ :: _ => some (String.mk ('{' :: rest.takeWhile (fun c => c != '}') ++ ['}']))

/-- Translation of `_parse_json_data`: full-line decode, then decode of the
extracted brace substring, then no result.  A decode failure is an `Option`
value, never an exception. -/
def parse_json_data (data : String) : Option PyVal :=
  match jsonLoads data with
  | some v => some v
  | Option.none =>
    match extractBrace data with
    | some sub => jsonLoads sub
    | Option.none => Option.none

example : parse_json_data "\x7b\"a\":1\x7d" = some (PyVal.dict [("a", PyVal.int 1)]) := rfl
example : parse_json_data "noise \x7b\"a\": 1\x7d tail" =
    some (PyVal.dict [("a", PyVal.int 1)]) := rfl
example : parse_json_data "pre \x7b\"a\": \x7b\"b\": 1\x7d\x7d" = Option.none := rfl
example : parse_json_data "no braces at all" = Option.none := rfl

/-- The lines the csv reader receives from `io.StringIO` (default
`newline` keeps the text as is and line iteration splits after every line
feed): each segment keeps its terminating line feed, and a final line feed
produces no extra empty line. -/
def sioLinesAux : List Char → List Char → List (List Char)
  | [], cur => if cur.isEmpty then [] else [cur.reverse]
  | c :: rest, cur =>
    if c = '\n' then (cur.reverse ++ ['\n']) :: sioLinesAux rest []
    else sioLinesAux rest (c :: cur)

/-- One record of `csv.reader` from one such line.  Carriage returns are
legal only as a run that ends the line (an end-of-record marker, as in a
CRLF break); a carriage return followed by anything else inside the
unquoted data raises the reader error ("new-line character seen in
unquoted field"), modelled as `Option.none`.  An empty line yields an
empty record.  Quoting is not modelled: the inputs of this development are
quote-free, where the reader splits fields at every comma. -/
def csvRecord (line : List Char) : Option (List String) :=
  let core := line.takeWhile (fun c => c != '\n')
  let body := core.takeWhile (fun c => c != '\r')
  let tail := core.dropWhile (fun c => c != '\r')
  if tail.all (fun c => c = '\r') then
    some (if body.isEmpty then [] else splitChar (String.mk body) ',')
  else Option.none

/-- `list(reader)`: the records of every line in order; the first reader
error aborts the whole listing. -/
def csvRecords : List (List Char) → Option (List (List String))
  | [] => some []
  | l :: rest =>
    match csvRecord l with
    | Option.none => Option.none
    | some r =>
      match csvRecords rest with
      | Option.none => Option.none
      | some rs => some (r :: rs)

/-- `rows = list(csv.reader(io.StringIO(data)))`, or the raised reader
error. -/
def csvRows (s : String) : Option (List (List String)) :=
  csvRecords (sioLinesAux s.data [])

/-- `dict(zip(headers, values))`. -/
def zipDict (headers values : List String) : PyDict :=
  (headers.zip values).foldl (fun d p => dictInsert d p.1 (PyVal.str p.2)) []

/-- Translation of `_parse_csv_data`: a reader error is caught and yields
no result; otherwise at least two rows give row 0 zipped with row 1
position by position, every further row ignored, and fewer than two rows
give no result. -/
def parse_csv_data (data : String) : Option PyDict :=
  match csvRows data with
  | Option.none => Option.none
  | some rows =>
    match rows with
    | h :: v :: _ => some (zipDict h v)
    | _ => Option.none

example : parse_csv_data "temp,hum\n21,55" =
    some [("temp", PyVal.str "21"), ("hum", PyVal.str "55")] := rfl
example : parse_csv_data "a,b\r\n1,2" =
    some [("a", PyVal.str "1"), ("b", PyVal.str "2")] := rfl
example : parse_csv_data "a,b\n1,2\n3,4" =
    some [("a", PyVal.str "1"), ("b", PyVal.str "2")] := rfl
example : parse_csv_data "a,b" = Option.none := rfl
example : parse_csv_data "a,b\r1,2" = Option.none := rfl
example : csvRows "a,b\n\n1,2" = some [["a", "b"], [], ["1", "2"]] := rfl

/-- A separator of the key-value splitter: comma, semicolon, newline,
carriage return or tab. -/
def isKVSep (c : Char) : Bool :=
  c = ',' || c = ';' || c = '\n' || c = '\r' || c = '\t'

/-- Splitting on every maximal run of separators, as the pattern with a
one-or-more quantifier does: a leading or trailing run yields an empty
token, an interior run yields exactly one boundary.  The fuel is the length
of the input plus one, enough for every step since each step consumes at
least one character. -/
def splitRunsAux : Nat → List Char → List Char → List String
  | 0, _, cur => [String.mk cur.reverse]
  | _ + 1, [], cur => [String.mk cur.reverse]
  | fuel + 1, c :: rest, cur =>
    if isKVSep c then
      String.mk cur.reverse :: splitRunsAux fuel (rest.dropWhile isKVSep) []
    else splitRunsAux fuel rest (c :: cur)

def splitRuns (s : String) : List String := splitRunsAux (s.data.length + 1) s.data []

example : splitRuns "volt=3.7,amp=1.2" = ["volt=3.7", "amp=1.2"] := rfl
example : splitRuns ",a,," = ["", "a", ""] := rfl

/-- Python `s.split(sep, 1)`: the part before the first occurrence and the
part after it. -/
def pySplitOnce (s : String) (sep : Char) : String × String :=
  (String.mk (s.data.takeWhile (fun c => c != sep)),
   String.mk ((s.data.dropWhile (fun c => c != sep)).drop 1))

/-- The accumulation loop of `_parse_key_value_data`: a token containing an
equals sign splits at the first one, otherwise a token containing a colon
splits at the first one, otherwise the token is dropped; key and value are
stripped. -/
def kvAccum (pairs : List String) : PyDict :=
  pairs.foldl (fun d pair =>
    if strContains pair '=' then
      dictInsert d (pyStrip (pySplitOnce pair '=').1) (PyVal.str (pyStrip (pySplitOnce pair '=').2))
    else if strContains pair ':' then
      dictInsert d (pyStrip (pySplitOnce pair ':').1) (PyVal.str (pyStrip (pySplitOnce pair ':').2))
    else d) []

/-- Translation of `_parse_key_value_data`. -/
def parse_key_value_data (data : String) : Option PyDict :=
  let result := kvAccum (splitRuns data)
  if result.isEmpty then Option.none else some result

example : parse_key_value_data "volt=3.7,amp=1.2" =
    some [("volt", PyVal.str "3.7"), ("amp", PyVal.str "1.2")] := rfl
example : parse_key_value_data "volt:3.7,amp:1.2" =
    some [("volt", PyVal.str "3.7"), ("amp", PyVal.str "1.2")] := rfl
example : parse_key_value_data "a=b=c" = some [("a", PyVal.str "b=c")] := rfl
example : parse_key_value_data " volt = 3.7 ;\tamp = 1.2 " =
    some [("volt", PyVal.str "3.7"), ("amp", PyVal.str "1.2")] := rfl
example : parse_key_value_data "hello" = Option.none := rfl
example : parse_key_value_data "" = Option.none := rfl

/-- UTF-8 bytes of one character, for the hex encoding of the binary
parser. -/
def utf8Bytes (c : Char) : List Nat :=
  let n := c.toNat
  if n < 128 then [n]
  else if n < 2048 then [192 + n / 64, 128 + n % 64]
  else if n < 65536 then [224 + n / 4096, 128 + (n / 64) % 64, 128 + n % 64]
  else [240 + n / 262144, 128 + (n / 4096) % 64, 128 + (n / 64) % 64, 128 + n % 64]

def hexDigit (n : Nat) : Char :=
  if n < 10 then Char.ofNat (48 + n) else Char.ofNat (87 + n)

def hexOfBytes (bs : List Nat) : List Char :=
  bs.foldr (fun b acc => hexDigit (b / 16) :: hexDigit (b % 16) :: acc) []

/-- Translation of `_parse_binary_data`: the hex of the UTF-8 encoding of
the line, plus its character length. -/
def parse_binary_data (data : String) : Option PyDict :=
  some [("hex", PyVal.str (String.mk (hexOfBytes (data.data.foldr (fun c acc => utf8Bytes c ++ acc) [])))),
        ("binary_length", PyVal.int data.data.length)]

example : parse_binary_data "AB" =
    some [("hex", PyVal.str "4142"), ("binary_length", PyVal.int 2)] := rfl

/-- Translation of `_parse_text_data`. -/
def parse_text_data (data : String) : Option PyDict :=
  some [("text", PyVal.str data), ("length", PyVal.int data.data.length)]

/-! ## The Sensor Normalizer (`USBMonitor._extract_sensor_data`) -/

/-- The fixed alias table: canonical sensor kind, then the accepted source
field names in priority order. -/
def field_mappings : List (String × List String) :=
  [("temperature", ["temp", "temperature", "celsius", "fahrenheit", "c", "f"]),
   ("humidity", ["humidity", "hum", "rh", "relative_humidity"]),
   ("pressure", ["pressure", "barometric", "atm", "pa", "hpa"]),
   ("voltage", ["voltage", "volt", "v", "battery_v", "volts"]),
   ("current", ["current", "amp", "ampere", "ma", "battery_i"]),
   ("state_of_charge", ["soc", "battery_level", "charge", "capacity"]),
   ("speed", ["rpm", "speed", "velocity", "revolution"]),
   ("distance", ["distance", "dist", "range", "meters", "feet"]),
   ("light", ["light", "lux", "brightness", "illumination"]),
   ("sound", ["sound", "db", "decibel", "noise", "audio"])]

/-- The substitution of the pattern that keeps only digits, decimal points
and minus signs: every other character of the text is removed (minus signs
are kept wherever they occur). -/
def stripNum (s : String) : String :=
  String.mk (s.data.filter (fun c => c.isDigit || c = '.' || c = '-'))

example : stripNum "3.7V" = "3.7" := rfl
example : stripNum "abc" = "" := rfl
example : stripNum "5V-" = "5-" := rfl

/-- Model of Python `float` on strings drawn from digits, dots and minus
signs (the only characters the stripped residue can contain): an optional
leading minus, then digits with at most one dot and at least one digit. -/
def pyFloatCore (cs : List Char) : Option Rat :=
  let ip := cs.takeWhile Char.isDigit
  let r := cs.dropWhile Char.isDigit
  match r with
  | [] => if ip.isEmpty then Option.none else some ((digitsToNat ip : Nat) : Rat)
  | '.' :: fr =>
    if fr.all Char.isDigit && !(ip.isEmpty && fr.isEmpty) then
      some ((digitsToNat ip : Rat) + (digitsToNat fr : Rat) / ((10 : Rat) ^ fr.length))
    else Option.none
  | _ => Option.none

def pyFloat (s : String) : Option Rat :=
  match s.data with
  | '-' :: rest => (pyFloatCore rest).map (fun q => -q)
  | cs => pyFloatCore cs

example : pyFloat "3.7" = some (37/10) := by with_unfolding_all rfl
example : pyFloat "-" = Option.none := rfl
example : pyFloat "5-" = Option.none := rfl
example : pyFloat "1.2.3" = Option.none := rfl
example : pyFloat "-.5" = some (-(1/2)) := by with_unfolding_all rfl

/-- The body of the per-alias `try` block of `_extract_sensor_data`: a text
value is stripped to its numeric residue and converted when the residue is a
valid float literal; an empty residue keeps the text; a non-text value is
copied as it is.  `Option.none` is the exception of the `float` call: the
residue is non-empty but not a valid literal. -/
def coerceValue : PyVal → Option PyVal
  | PyVal.str s =>
    let nv := stripNum s
    if nv = "" then some (PyVal.str s)
    else
      match pyFloat nv with
      | some q => some (PyVal.float q)
      | Option.none => Option.none
  | v => some v

/-- The alias scan of one sensor kind.  On a value handled without an
exception the result is stored and the scan breaks; when the conversion
raises, the `except` arm stores the original value and — having no `break` —
the scan continues with the next alias. -/
def scanKind (parsed sensor : PyDict) (kind : String) : List String → PyDict
  | [] => sensor
  | nm :: rest =>
    match dictGet parsed nm with
    | Option.none => scanKind parsed sensor kind rest
    | some v =>
      match coerceValue v with
      | some w => dictInsert sensor kind w
      | Option.none => scanKind parsed (dictInsert sensor kind v) kind rest

/-- Translation of `_extract_sensor_data`. -/
def extract_sensor_data (parsed : PyDict) : PyDict :=
  if parsed.isEmpty then []
  else field_mappings.foldl (fun s p => scanKind parsed s p.1 p.2) []

example : extract_sensor_data [("voltage", PyVal.str "3.7V")] =
    [("voltage", PyVal.float (37/10))] := by with_unfolding_all rfl
example : extract_sensor_data [("voltage", PyVal.str "abc")] =
    [("voltage", PyVal.str "abc")] := rfl
example : extract_sensor_data [("temp", PyVal.int 21), ("temperature", PyVal.int 99)] =
    [("temperature", PyVal.int 21)] := rfl
example : extract_sensor_data [("temp", PyVal.str "-"), ("temperature", PyVal.int 25)] =
    [("temperature", PyVal.int 25)] := rfl
example : extract_sensor_data [("voltage", PyVal.str "5V-")] =
    [("voltage", PyVal.str "5V-")] := rfl

/-! ## Data Response construction (`parse_universal_data` and pydantic) -/

/-- The externally visible Data Response (`USBDataResponse`).  The five
legacy fields are unvalidated post-construction assignments in the source,
so they hold arbitrary values. -/
structure USBDataResponse where
  timestamp : String
  data_size : Nat
  raw_data : String
  formatted_data : Option PyDict
  data_type : String
  device_info : Option PyDict
  sensor_data : Option PyDict
  soc : Option PyVal
  battery_i : Option PyVal
  battery_v : Option PyVal
  temp : Option PyVal
  rpm : Option PyVal

/-- A sensor value the response model accepts: `str`, `int` or `float`.
The validator of the response rejects anything else in the sensor mapping
(in particular null, lists, dicts and booleans), which the source catches as
a parse failure. -/
def isScalar : PyVal → Bool
  | PyVal.str _ => true
  | PyVal.int _ => true
  | PyVal.float _ => true
  | _ => false

def sensorScalars (d : PyDict) : Bool := d.all (fun p => isScalar p.2)

/-- Build the response of `parse_universal_data`, including the
backward-compatibility extraction guarded by the truthiness of the sensor
mapping. -/
def mkResp (clean : String) (n : Nat) (fd : Option PyDict) (fmt : String)
    (di : PyDict) (sensor : PyDict) (now : String) : USBDataResponse :=
  let g := dictGet sensor
  let base : USBDataResponse :=
    { timestamp := now, data_size := n, raw_data := clean, formatted_data := fd,
      data_type := fmt, device_info := some di, sensor_data := some sensor,
      soc := Option.none, battery_i := Option.none, battery_v := Option.none,
      temp := Option.none, rpm := Option.none }
  if sensor.isEmpty then base
  else
    { base with
      soc := pyOrElse (pyOrElse (g "soc") (g "state_of_charge")) (g "battery_level"),
      battery_i := pyOrElse (pyOrElse (g "battery_i") (g "current")) (g "amp"),
      battery_v := pyOrElse (pyOrElse (g "battery_v") (g "voltage")) (g "volt"),
      temp := pyOrElse (pyOrElse (g "temp") (g "temperature")) (g "celsius"),
      rpm := pyOrElse (pyOrElse (g "rpm") (g "speed")) (g "revolution") }

/-- Translation of `parse_universal_data`.  The cleaned line is classified
(or the requested format is used), parsed by the matching parser, and run
through the normalizer.  A parsed result that is neither a mapping nor null
makes the sensor extraction or the response validation raise, which the
enclosing handler turns into no result; the same happens when a sensor value
is not scalar.  A parser failure still produces a response whose formatted
data is null. -/
def parse_universal_data (device_info : PyDict) (raw_data : String) (data_size : Nat)
    (fmtIn : String) (now : String) : Option USBDataResponse :=
  let clean := removeChar (pyStrip raw_data) (Char.ofNat 0)
  if clean = "" then Option.none
  else
    let fmt := if fmtIn = "auto" then detect_data_format clean else fmtIn
    let parsed : Option PyVal :=
      if fmt = "json" then parse_json_data clean
      else if fmt = "csv" then (parse_csv_data clean).map PyVal.dict
      else if fmt = "key_value" then (parse_key_value_data clean).map PyVal.dict
      else if fmt = "binary" then (parse_binary_data clean).map PyVal.dict
      else if fmt = "text" then (parse_text_data clean).map PyVal.dict
      else Option.none
    match parsed with
    | some (PyVal.dict pd) =>
      if (pd.isEmpty) then some (mkResp clean data_size (some pd) fmt device_info [] now)
      else
        let sensor := extract_sensor_data pd
        if sensorScalars sensor then
          some (mkResp clean data_size (some pd) fmt device_info sensor now)
        else Option.none
    | some PyVal.none => some (mkResp clean data_size Option.none fmt device_info [] now)
    | some _ => Option.none
    | Option.none => some (mkResp clean data_size Option.none fmt device_info [] now)

/-! ## The Device Monitor state machine -/

/-- An open or closed serial transport held by the monitor. -/
structure SerialConn where
  is_open : Bool

/-- One record of the connection-attempt log. -/
structure ConnAttempt where
  device : String
  baudrate : Option Nat
  timestamp : String
  success : Bool

/-- The mutable state of `USBMonitor`. -/
structure MonitorState where
  serial_connection : Option SerialConn
  is_connected : Bool
  device_info : PyDict
  latest_data : Option USBDataResponse
  data_format : String
  connection_history : List ConnAttempt

/-- The state `USBMonitor.__init__` builds. -/
def initState : MonitorState :=
  { serial_connection := Option.none, is_connected := false, device_info := [],
    latest_data := Option.none, data_format := "auto", connection_history := [] }

/-- The external world of one call: whether the cloud fallback is active
(the RENDER/CLOUD variables or a missing pyserial), whether a serial
connection strategy succeeds, and the enumeration results outside the cloud
branch. -/
structure DeviceRec where
  device : String
  description : String
  manufacturer : Option String
  is_connected : Bool
  device_type : String
  recommended_baudrate : Option Nat
  supported_formats : List String

structure Env where
  cloud : Bool
  serialOk : Bool
  enhancedInfo : PyDict
  realDevices : List DeviceRec

/-- The two fixed cloud devices of `_get_cloud_devices`. -/
def cloudDevice1 : DeviceRec :=
  { device := "/dev/cloud/cp2102", description := "CP2102 USB to UART Bridge Controller",
    manufacturer := some "Silicon Labs", is_connected := false, device_type := "generic",
    recommended_baudrate := some 115200,
    supported_formats := ["json", "text", "csv", "binary"] }

def cloudDevice2 : DeviceRec :=
  { device := "/dev/cloud/sensor", description := "Temperature Sensor",
    manufacturer := some "Cloud Labs", is_connected := false, device_type := "sensor",
    recommended_baudrate := some 9600, supported_formats := ["json", "text"] }

def cloudDevices : List DeviceRec := [cloudDevice1, cloudDevice2]

/-- Translation of `get_available_devices`: the cloud branch returns the
fixed cloud devices; the pyserial enumeration outside it is an environment
input. -/
def get_available_devices (env : Env) : List DeviceRec :=
  if env.cloud then cloudDevices else env.realDevices

/-- Translation of `disconnect`: only an open serial transport is closed and
only then are the flag and the metadata reset; `latest_data` is never
touched. -/
def disconnect (st : MonitorState) : MonitorState :=
  match st.serial_connection with
  | some conn =>
    if conn.is_open then
      { st with
        serial_connection := some ⟨false⟩,
        is_connected := false, device_info := [] }
    else st
  | Option.none => st

/-- Translation of `_connect_cloud_device`: set the flag and the metadata;
no transport object is created and the attempt log is not extended. -/
def connect_cloud_device (st : MonitorState) (path : String) (baud : Option Nat)
    (now : String) : Bool × MonitorState :=
  let b : Nat :=
    match baud with
    | some n => if n = 0 then 115200 else n
    | Option.none => 115200
  (true,
   { st with
     is_connected := true,
     device_info :=
       [("device", PyVal.str path),
        ("description", PyVal.str "Cloud Device Simulation"),
        ("baudrate", PyVal.int b),
        ("timestamp", PyVal.str now),
        ("environment", PyVal.str "cloud")] })

/-- Translation of `connect_to_device`: an existing connection is dropped
first; the cloud branch always succeeds; outside it the baud probing and the
parameter strategies are transport probes whose outcome the environment
supplies, a success capturing the enumerated metadata and both outcomes
appending to the attempt log. -/
def connect_to_device (st : MonitorState) (env : Env) (path : String) (baud : Option Nat)
    (now : String) : Bool × MonitorState :=
  let st1 := if st.is_connected then disconnect st else st
  if env.cloud then connect_cloud_device st1 path baud now
  else if env.serialOk then
    (true,
     { st1 with
       serial_connection := some ⟨true⟩, is_connected := true,
       device_info := env.enhancedInfo,
       connection_history := st1.connection_history ++ [⟨path, baud, now, true⟩] })
  else
    (false,
     { st1 with connection_history := st1.connection_history ++ [⟨path, baud, now, false⟩] })

/-! ## The cloud data simulation (`_get_cloud_data`) -/

/-- The pseudo-random draws feeding one cloud payload: four unit-interval
positions (through `Int.fract`) and one integer seed. -/
structure Draws where
  u1 : Rat
  u2 : Rat
  u3 : Rat
  u4 : Rat
  s5 : Nat

/-- `random.uniform a b`, the library formula with the `random()` draw
modelled as the fractional part of the seed. -/
def uniform (a b u : Rat) : Rat := a + (b - a) * Int.fract u

/-- `round(x, 2)`: the nearest multiple of one hundredth (the half-even
choice of Python on the tie of a binary float is immaterial to every bound
proved here). -/
def round2 (q : Rat) : Rat := ((⌊q * 100 + 1/2⌋ : Int) : Rat) / 100

/-- `random.randint a b`: an integer of `[a, b]` selected by the seed. -/
def randint (a b : Int) (s : Nat) : Int := a + ((s % (b - a + 1).toNat : Nat) : Int)

/-! Rendering of the cloud payload (`json.dumps`). -/

def escapeJsonChar (c : Char) : List Char :=
  if c = '"' then ['\\', '"']
  else if c = '\\' then ['\\', '\\']
  else if c = '\n' then ['\\', 'n']
  else if c = '\r' then ['\\', 'r']
  else if c = '\t' then ['\\', 't']
  else if c.toNat = 8 then ['\\', 'b']
  else if c.toNat = 12 then ['\\', 'f']
  else if c.toNat < 32 || 126 < c.toNat then
    '\\' :: 'u' :: (hexDigit ((c.toNat / 4096) % 16)) :: (hexDigit ((c.toNat / 256) % 16)) ::
      (hexDigit ((c.toNat / 16) % 16)) :: [hexDigit (c.toNat % 16)]
  else [c]

def renderJsonStr (s : String) : String :=
  String.mk ('"' :: s.data.foldr (fun c acc => escapeJsonChar c ++ acc) ['"'])

/-- Decimal digits of the fractional part of a rational of `[0,1)`; the fuel
bounds the expansion, ample for the two-decimal payload values. -/
def fracDigits : Nat → Rat → List Char
  | 0, _ => []
  | fuel + 1, q =>
    if q = 0 then []
    else
      let d := ⌊q * 10⌋
      Char.ofNat (48 + d.toNat) :: fracDigits fuel (Int.fract (q * 10))

/-- The shortest-repr rendering of a Python float with a terminating decimal
expansion. -/
def renderFloat (q : Rat) : String :=
  let a := |q|
  let ip := ⌊a⌋.toNat
  let fp := Int.fract a
  let frac := if fp = 0 then ['0'] else fracDigits 32 fp
  (if q < 0 then "-" else "") ++ toString ip ++ "." ++ String.mk frac

/-- `json.dumps` with the default separators, driven by a structural fuel
(32 exceeds every nesting depth the service builds). -/
def jsonDumpVal : Nat → PyVal → String
  | 0, _ => ""
  | fuel + 1, v =>
    match v with
    | PyVal.none => "null"
    | PyVal.bool true => "true"
    | PyVal.bool false => "false"
    | PyVal.int n => toString n
    | PyVal.float q => renderFloat q
    | PyVal.str s => renderJsonStr s
    | PyVal.list xs =>
      "[" ++ String.intercalate ", " (xs.map (jsonDumpVal fuel)) ++ "]"
    | PyVal.dict kvs =>
      String.mk ('{' :: (String.intercalate ", "
        (kvs.map (fun p => renderJsonStr p.1 ++ ": " ++ jsonDumpVal fuel p.2))).data ++ ['}'])

def jsonDumps (v : PyVal) : String := jsonDumpVal 32 v

/-- The cloud payload dict of `_get_cloud_data`. -/
def cloudDict (d : Draws) (now : String) : PyDict :=
  [("timestamp", PyVal.str now),
   ("temperature", PyVal.float (round2 (uniform 20 35 d.u1))),
   ("humidity", PyVal.float (round2 (uniform 40 80 d.u2))),
   ("pressure", PyVal.float (round2 (uniform 980 1020 d.u3))),
   ("battery_voltage", PyVal.float (round2 (uniform (32/10) (42/10) d.u4))),
   ("signal_strength", PyVal.int (randint (-80) (-30) d.s5)),
   ("device_id", PyVal.str "CLOUD_DEVICE_001"),
   ("status", PyVal.str "active")]

/-- Translation of `_get_cloud_data`: the payload is serialized for the raw
field and carried as formatted and sensor data; the legacy temperature and
battery-voltage fields are filled, the other legacy fields stay null. -/
def getCloudData (st : MonitorState) (d : Draws) (now : String) : USBDataResponse :=
  let cd := cloudDict d now
  { timestamp := now,
    data_size := (jsonDumps (PyVal.dict cd)).data.length,
    raw_data := jsonDumps (PyVal.dict cd),
    formatted_data := some cd,
    data_type := "json",
    device_info := some st.device_info,
    sensor_data := some cd,
    soc := Option.none, battery_i := Option.none,
    battery_v := some (PyVal.float (round2 (uniform (32/10) (42/10) d.u4))),
    temp := some (PyVal.float (round2 (uniform 20 35 d.u1))),
    rpm := Option.none }

/-! ## `read_data` and the endpoints -/

/-- Translation of `read_data`.  `inp` is what the transport yields for this
call: the decoded text of the immediately available bytes or of the blocking
line read, with its byte count, or nothing. -/
def read_data (st : MonitorState) (env : Env) (d : Draws) (inp : Option (String × Nat))
    (now : String) (fmt : String) : Option USBDataResponse × MonitorState :=
  if st.is_connected = false then (Option.none, st)
  else if env.cloud then (some (getCloudData st d now), st)
  else
    match st.serial_connection with
    | Option.none => (Option.none, st)
    | some _ =>
      match inp with
      | Option.none => (Option.none, st)
      | some (bytes, n) =>
        let raw := pyStrip bytes
        if raw = "" then (Option.none, st)
        else
          match parse_universal_data st.device_info raw n fmt now with
          | some r => (some r, { st with latest_data := some r })
          | Option.none => (Option.none, st)

/-- The outcomes of `GET /data`: a Data Response, the informational
no-data payload (message, timestamp, connected flag, device info and a
suggestion), or an HTTP client error. -/
inductive DataApiResult where
  | ok (r : USBDataResponse)
  | noData (timestamp : String) (device_info : PyDict)
  | clientError (code : Nat) (detail : String)

/-- Translation of the `GET /data` handler `get_usb_data`. -/
def get_usb_data (st : MonitorState) (env : Env) (d : Draws) (inp : Option (String × Nat))
    (now : String) (fmt : String) : DataApiResult × MonitorState :=
  if st.is_connected = false then
    (DataApiResult.clientError 400 "No device connected. Use /auto-detect or /connect first.", st)
  else
    let r := read_data st env d inp now fmt
    match r.1 with
    | some dres => (DataApiResult.ok dres, r.2)
    | Option.none =>
      match r.2.latest_data with
      | some l => (DataApiResult.ok l, r.2)
      | Option.none => (DataApiResult.noData now r.2.device_info, r.2)

/-- The outcomes of `POST /usb-inserted`. -/
inductive InsertedStatus where
  | no_devices
  | all_connected
  | connected (dev : DeviceRec)
  | connection_failed (device : String)

/-- Translation of the `POST /usb-inserted` handler: enumerate, pick the
first unconnected device, connect to it. -/
def handle_usb_inserted (st : MonitorState) (env : Env) (now : String) :
    InsertedStatus × MonitorState :=
  let devices := get_available_devices env
  if devices.isEmpty then (InsertedStatus.no_devices, st)
  else
    match devices.find? (fun dv => !dv.is_connected) with
    | Option.none => (InsertedStatus.all_connected, st)
    | some best =>
      let r := connect_to_device st env best.device best.recommended_baudrate now
      if r.1 then (InsertedStatus.connected best, r.2)
      else (InsertedStatus.connection_failed best.device, r.2)

/-- The outcomes of `POST /disconnect`; both carry status "disconnected" in
the HTTP payload. -/
inductive DisconnectApiResult where
  | noDevice
  | success (previous_device : PyDict)

/-- Translation of the `POST /disconnect` handler. -/
def disconnect_device (st : MonitorState) : DisconnectApiResult × MonitorState :=
  if st.is_connected = false then (DisconnectApiResult.noDevice, st)
  else (DisconnectApiResult.success st.device_info, disconnect st)

/-! ## Concrete sample environments and reachable states -/

def envCloud : Env :=
  { cloud := true, serialOk := false, enhancedInfo := [], realDevices := [] }

def envSerial : Env :=
  { cloud := false, serialOk := true,
    enhancedInfo := [("device", PyVal.str "/dev/ttyUSB0")], realDevices := [] }

def draws0 : Draws := ⟨0, 0, 0, 0, 0⟩

/-- The state after a cloud connect: connected, no transport object. -/
def stCloudConnected : MonitorState :=
  (connect_to_device initState envCloud "/dev/cloud/cp2102" (some 115200) "T0").2

/-- The state after a serial connect. -/
def stSerialConnected : MonitorState :=
  (connect_to_device initState envSerial "/dev/ttyUSB0" (some 9600) "T0").2

/-- The state after a serial connect followed by one successful read of the
line `a=1`. -/
def stSerialWithLatest : MonitorState :=
  (read_data stSerialConnected envSerial draws0 (some ("a=1", 3)) "T1" "auto").2

/-- A connected monitor with no transport object outside the cloud branch
(the shape `read_data` answers with no data). -/
def stConnNoSerial : MonitorState := { initState with is_connected := true }

example : stCloudConnected.is_connected = true := rfl
example : stCloudConnected.serial_connection = Option.none := rfl
example : ∃ r, stSerialWithLatest.latest_data = some r := ⟨_, rfl⟩
example : stSerialWithLatest.is_connected = true := rfl

/-- The Data Response that parsing the line `a=1` produces (the latest data
of `stSerialWithLatest`). -/
def sampleResponse : USBDataResponse :=
  mkResp "a=1" 3 (some [("a", PyVal.str "1")]) "key_value" envSerial.enhancedInfo [] "T1"

/-! ## Claim-side predicates for the Format Detector -/

/-- Condition (1) of the detector contract: bracket-wrapped and decodes as
JSON. -/
def jsonCond (data : String) : Prop :=
  ((strStartsWith data "\x7b" = true ∧ strEndsWith data "\x7d" = true) ∨
   (strStartsWith data "[" = true ∧ strEndsWith data "]" = true)) ∧
  (jsonLoads data).isSome = true

/-- Condition (2): a comma is present and splitting on commas yields at
least two fields. -/
def csvCond (data : String) : Prop :=
  strContains data ',' = true ∧ 2 ≤ (splitChar data ',').length

/-- Condition (3): an equals sign or a colon is present. -/
def kvCond (data : String) : Prop :=
  strContains data '=' = true ∨ strContains data ':' = true

/-- Condition (4): some character other than newline, carriage return or
tab falls outside printable ASCII 32..126. -/
def binCond (data : String) : Prop :=
  ∃ c ∈ data.data, ¬(c = '\n' ∨ c = '\r' ∨ c = '\t') ∧ (c.toNat < 32 ∨ 126 < c.toNat)

instance (data : String) : Decidable (jsonCond data) := by
  unfold jsonCond; exact inferInstance

instance (data : String) : Decidable (csvCond data) := by
  unfold csvCond; exact inferInstance

instance (data : String) : Decidable (kvCond data) := by
  unfold kvCond; exact inferInstance

instance (data : String) : Decidable (binCond data) := by
  unfold binCond; exact inferInstance

/-- The value the alias scan of one kind computes, independently of the
dict it stores into: the first present alias whose value coerces without an
exception wins; a raising value is remembered as the pending result and a
later alias may replace it. -/
def scanValue (parsed : PyDict) (prev : Option PyVal) : List String → Option PyVal
  | [] => prev
  | nm :: rest =>
    match dictGet parsed nm with
    | Option.none => scanValue parsed prev rest
    | some v =>
      match coerceValue v with
      | some w => some w
      | Option.none => scanValue parsed (some v) rest

/-! ## Dictionary lemmas -/

theorem dictGet_insert_self (d : PyDict) (k : String) (v : PyVal) :
    dictGet (dictInsert d k v) k = some v := by
  induction d with
  | nil => simp [dictInsert, dictGet]
  | cons hd tl ih =>
    obtain ⟨k0, v0⟩ := hd
    by_cases h : k0 = k
    · simp [dictInsert, dictGet, h]
    · simp [dictInsert, dictGet, h, ih]

theorem dictGet_insert_ne (d : PyDict) (k k' : String) (v : PyVal) (h : k' ≠ k) :
    dictGet (dictInsert d k v) k' = dictGet d k' := by
  induction d with
  | nil => simp [dictInsert, dictGet, Ne.symm h]
  | cons hd tl ih =>
    obtain ⟨k0, v0⟩ := hd
    by_cases h0 : k0 = k
    · subst h0
      simp [dictInsert, dictGet, Ne.symm h]
    · simp [dictInsert, dictGet, h0, ih]

theorem keyCount_cons (k0 : String) (v0 : PyVal) (tl : PyDict) (k : String) :
    keyCount ((k0, v0) :: tl) k = (if k0 = k then 1 else 0) + keyCount tl k := by
  by_cases h : k0 = k <;> simp [keyCount, List.filter_cons, h, Nat.add_comm]

theorem keyCount_insert_self (d : PyDict) (k : String) (v : PyVal) :
    keyCount (dictInsert d k v) k = if keyCount d k = 0 then 1 else keyCount d k := by
  induction d with
  | nil => simp [dictInsert, keyCount_cons, keyCount]
  | cons hd tl ih =>
    obtain ⟨k0, v0⟩ := hd
    by_cases h : k0 = k
    · subst h
      have h1 : dictInsert ((k0, v0) :: tl) k0 v = (k0, v) :: tl := by simp [dictInsert]
      have h2 : keyCount ((k0, v) :: tl) k0 = 1 + keyCount tl k0 := by
        rw [keyCount_cons, if_pos rfl]
      have h3 : keyCount ((k0, v0) :: tl) k0 = 1 + keyCount tl k0 := by
        rw [keyCount_cons, if_pos rfl]
      rw [h1, h2, h3, if_neg (by omega)]
    · simp [dictInsert, h, keyCount_cons, ih]

theorem keyCount_insert_ne (d : PyDict) (k k' : String) (v : PyVal) (h : k' ≠ k) :
    keyCount (dictInsert d k v) k' = keyCount d k' := by
  induction d with
  | nil => simp [dictInsert, keyCount_cons, keyCount, Ne.symm h]
  | cons hd tl ih =>
    obtain ⟨k0, v0⟩ := hd
    by_cases h0 : k0 = k
    · subst h0
      simp [dictInsert, keyCount_cons]
    · simp [dictInsert, h0, keyCount_cons, ih]

theorem keyCount_eq_zero_iff_get_none (d : PyDict) (k : String) :
    keyCount d k = 0 ↔ dictGet d k = Option.none := by
  induction d with
  | nil => simp [keyCount, dictGet]
  | cons hd tl ih =>
    obtain ⟨k0, v0⟩ := hd
    by_cases h : k0 = k
    · simp [keyCount_cons, dictGet, h]
    · simp [keyCount_cons, dictGet, h, ih]

/-- Bound preserved by one insert: no key ever appears twice. -/
theorem keyCount_insert_le_one (d : PyDict) (k k' : String) (v : PyVal)
    (h : keyCount d k' ≤ 1) : keyCount (dictInsert d k v) k' ≤ 1 := by
  by_cases hk : k' = k
  · subst hk
    rw [keyCount_insert_self]
    split <;> omega
  · rwa [keyCount_insert_ne _ _ _ _ hk]

/-! ## Alias-scan lemmas for the normalizer -/

theorem scanKind_get_self (parsed : PyDict) (kind : String) (l : List String) :
    ∀ sensor : PyDict,
      dictGet (scanKind parsed sensor kind l) kind = scanValue parsed (dictGet sensor kind) l := by
  induction l with
  | nil => intro sensor; rfl
  | cons nm rest ih =>
    intro sensor
    cases hg : dictGet parsed nm with
    | none => simp [scanKind, scanValue, hg, ih]
    | some v =>
      cases hc : coerceValue v with
      | none =>
        simp only [scanKind, scanValue, hg, hc]
        rw [ih, dictGet_insert_self]
      | some w =>
        simp only [scanKind, scanValue, hg, hc]
        exact dictGet_insert_self _ _ _

theorem scanKind_get_ne (parsed : PyDict) (kind k : String) (l : List String) (h : k ≠ kind) :
    ∀ sensor : PyDict, dictGet (scanKind parsed sensor kind l) k = dictGet sensor k := by
  induction l with
  | nil => intro sensor; rfl
  | cons nm rest ih =>
    intro sensor
    cases hg : dictGet parsed nm with
    | none => simp [scanKind, hg, ih]
    | some v =>
      cases hc : coerceValue v with
      | none =>
        simp only [scanKind, hg, hc]
        rw [ih, dictGet_insert_ne _ _ _ _ h]
      | some w =>
        simp only [scanKind, hg, hc]
        exact dictGet_insert_ne _ _ _ _ h

theorem scanKind_count_le_one (parsed : PyDict) (kind : String) (l : List String) :
    ∀ sensor : PyDict, (∀ k, keyCount sensor k ≤ 1) →
      ∀ k, keyCount (scanKind parsed sensor kind l) k ≤ 1 := by
  induction l with
  | nil => intro sensor h; exact h
  | cons nm rest ih =>
    intro sensor h k
    cases hg : dictGet parsed nm with
    | none => simpa [scanKind, hg] using ih sensor h k
    | some v =>
      cases hc : coerceValue v with
      | none =>
        simp only [scanKind, hg, hc]
        exact ih _ (fun k2 => keyCount_insert_le_one _ _ _ _ (h k2)) k
      | some w =>
        simp only [scanKind, hg, hc]
        exact keyCount_insert_le_one _ _ _ _ (h k)

theorem fold_get_not_mem (parsed : PyDict) (table : List (String × List String)) (k : String) :
    ∀ s : PyDict, (∀ p ∈ table, k ≠ p.1) →
      dictGet (table.foldl (fun s p => scanKind parsed s p.1 p.2) s) k = dictGet s k := by
  induction table with
  | nil => intro s _; rfl
  | cons hd tl ih =>
    intro s h
    simp only [List.foldl_cons]
    rw [ih _ (fun p hp => h p (List.mem_cons_of_mem _ hp))]
    exact scanKind_get_ne _ _ _ _ (h hd (List.mem_cons_self _ _)) s

theorem fold_get_mem (parsed : PyDict) (table : List (String × List String))
    (kind : String) (aliases : List String) :
    ∀ s : PyDict, (kind, aliases) ∈ table → (table.map Prod.fst).Nodup →
      dictGet s kind = Option.none →
      dictGet (table.foldl (fun s p => scanKind parsed s p.1 p.2) s) kind
        = scanValue parsed Option.none aliases := by
  induction table with
  | nil => intro s hmem; cases hmem
  | cons hd tl ih =>
    intro s hmem hnodup hs
    rw [List.map_cons, List.nodup_cons] at hnodup
    have hnd := hnodup
    rcases List.mem_cons.mp hmem with heq | htl
    · subst heq
      simp only [List.foldl_cons]
      rw [fold_get_not_mem parsed tl kind _ ?hne, scanKind_get_self, hs]
      intro p hp hkp
      have hmem2 : p.1 ∈ tl.map Prod.fst := List.mem_map_of_mem Prod.fst hp
      rw [← hkp] at hmem2
      exact hnd.1 hmem2
    · have hk : kind ∈ tl.map Prod.fst := by
        simpa using List.mem_map_of_mem Prod.fst htl
      have hne : kind ≠ hd.1 := fun hh => hnd.1 (hh ▸ hk)
      simp only [List.foldl_cons]
      rw [ih _ htl hnd.2]
      rw [scanKind_get_ne _ _ _ _ hne, hs]

theorem fold_count_le_one (parsed : PyDict) (table : List (String × List String)) :
    ∀ s : PyDict, (∀ k, keyCount s k ≤ 1) →
      ∀ k, keyCount (table.foldl (fun s p => scanKind parsed s p.1 p.2) s) k ≤ 1 := by
  induction table with
  | nil => intro s h; exact h
  | cons hd tl ih =>
    intro s h k
    simp only [List.foldl_cons]
    exact ih _ (scanKind_count_le_one parsed hd.1 hd.2 s h) k

theorem scanValue_empty_parsed (prev : Option PyVal) (l : List String) :
    scanValue [] prev l = prev := by
  induction l with
  | nil => rfl
  | cons nm rest ih => simpa [scanValue, dictGet] using ih

/-- The lookup of a canonical kind in the normalizer output is exactly the
alias-scan value of that kind. -/
theorem extract_get (parsed : PyDict) (kind : String) (aliases : List String)
    (hmem : (kind, aliases) ∈ field_mappings) :
    dictGet (extract_sensor_data parsed) kind = scanValue parsed Option.none aliases := by
  by_cases hp : parsed.isEmpty
  · have : parsed = [] := by simpa [List.isEmpty_iff] using hp
    subst this
    simp [extract_sensor_data, dictGet, scanValue_empty_parsed]
  · simp only [extract_sensor_data, hp, Bool.false_eq_true, if_false]
    exact fold_get_mem parsed field_mappings kind aliases [] hmem (by decide) rfl

/-- No key appears twice in the normalizer output. -/
theorem extract_count_le_one (parsed : PyDict) (k : String) :
    keyCount (extract_sensor_data parsed) k ≤ 1 := by
  by_cases hp : parsed.isEmpty
  · simp [extract_sensor_data, hp, keyCount]
  · simp only [extract_sensor_data, hp, Bool.false_eq_true, if_false]
    exact fold_count_le_one parsed field_mappings [] (fun k2 => by simp [keyCount]) k

theorem scanValue_append_none (parsed : PyDict) (prev : Option PyVal) (l : List String) :
    ∀ pre : List String, (∀ b ∈ pre, dictGet parsed b = Option.none) →
      scanValue parsed prev (pre ++ l) = scanValue parsed prev l := by
  intro pre
  induction pre with
  | nil => intro _; rfl
  | cons b rest ih =>
    intro h
    have hb := h b (List.mem_cons_self _ _)
    simp only [List.cons_append, scanValue, hb]
    exact ih (fun b2 hb2 => h b2 (List.mem_cons_of_mem _ hb2))

/-! ## Bounds of the cloud draws -/

theorem uniform_lb (a b u : Rat) (h : a ≤ b) : a ≤ uniform a b u := by
  have h1 := Int.fract_nonneg u
  have h2 : 0 ≤ (b - a) * Int.fract u := mul_nonneg (by linarith) h1
  unfold uniform
  linarith

theorem uniform_ub (a b u : Rat) (h : a < b) : uniform a b u < b := by
  have h1 := Int.fract_lt_one u
  have h2 : (b - a) * Int.fract u < (b - a) * 1 :=
    mul_lt_mul_of_pos_left h1 (by linarith)
  unfold uniform
  linarith

theorem round2_ge (m : Int) (q : Rat) (h : (m : Rat) ≤ 100 * q) :
    (m : Rat) / 100 ≤ round2 q := by
  have h1 : m ≤ ⌊q * 100 + 1/2⌋ := by
    rw [Int.le_floor]
    linarith
  unfold round2
  have h2 : (m : Rat) ≤ ((⌊q * 100 + 1/2⌋ : Int) : Rat) := by exact_mod_cast h1
  gcongr

theorem round2_le (m : Int) (q : Rat) (h : 100 * q < (m : Rat)) :
    round2 q ≤ (m : Rat) / 100 := by
  have h1 : ⌊q * 100 + 1/2⌋ < m + 1 := by
    rw [Int.floor_lt]
    push_cast
    linarith
  have h2 : ⌊q * 100 + 1/2⌋ ≤ m := by omega
  unfold round2
  have h3 : ((⌊q * 100 + 1/2⌋ : Int) : Rat) ≤ (m : Rat) := by exact_mod_cast h2
  gcongr

/-- `round(random.uniform(a, b), 2)` stays inside `[a, b]` whenever the two
endpoints are hundredth-aligned. -/
theorem round2_uniform_mem (a b u : Rat) (la lb : Int)
    (hla : (la : Rat) = 100 * a) (hlb : (lb : Rat) = 100 * b) (hab : a < b) :
    a ≤ round2 (uniform a b u) ∧ round2 (uniform a b u) ≤ b := by
  constructor
  · have h1 := uniform_lb a b u (le_of_lt hab)
    have h2 := round2_ge la (uniform a b u) (by rw [hla]; linarith)
    rw [hla] at h2
    have h3 : 100 * a / 100 = a := by ring
    rwa [h3] at h2
  · have h1 := uniform_ub a b u hab
    have h2 := round2_le lb (uniform a b u) (by rw [hlb]; linarith)
    rw [hlb] at h2
    have h3 : 100 * b / 100 = b := by ring
    rwa [h3] at h2

theorem randint_mem (a b : Int) (s : Nat) (h : a ≤ b) :
    a ≤ randint a b s ∧ randint a b s ≤ b := by
  unfold randint
  have h1 : ((b - a + 1).toNat : Int) = b - a + 1 := Int.toNat_of_nonneg (by omega)
  have h2 : s % (b - a + 1).toNat < (b - a + 1).toNat := Nat.mod_lt _ (by omega)
  omega

/-! ## Shape of the extracted brace substring -/

theorem dropWhile_decomp {p : Char → Bool} :
    ∀ (l : List Char) (x : Char) (xs : List Char), l.dropWhile p = x :: xs →
      l = l.takeWhile p ++ x :: xs ∧ p x = false ∧ ∀ c ∈ l.takeWhile p, p c = true := by
  intro l
  induction l with
  | nil => intro x xs h; cases h
  | cons a tl ih =>
    intro x xs h
    by_cases hp : p a
    · rw [List.dropWhile_cons, if_pos hp] at h
      obtain ⟨h1, h2, h3⟩ := ih x xs h
      refine ⟨?_, h2, ?_⟩
      · rw [List.takeWhile_cons, if_pos hp, List.cons_append]
        exact congrArg (a :: ·) h1
      · intro c hc
        rw [List.takeWhile_cons, if_pos hp] at hc
        rcases List.mem_cons.mp hc with hca | hctl
        · rwa [hca]
        · exact h3 c hctl
    · rw [List.dropWhile_cons, if_neg hp] at h
      obtain ⟨rfl, rfl⟩ : a = x ∧ tl = xs := by
        injection h with hh1 hh2; exact ⟨hh1, hh2⟩
      refine ⟨?_, by simpa using hp, ?_⟩
      · rw [List.takeWhile_cons, if_neg hp, List.nil_append]
      · intro c hc
        rw [List.takeWhile_cons, if_neg hp] at hc
        cases hc

/-- Everything `extractBrace` returns is a first, single-level brace match:
it sits inside the input after a brace-free prefix, starts with the first
opening brace, and its interior holds no closing brace. -/
theorem extractBrace_decomp (d sub : String) (h : extractBrace d = some sub) :
    ∃ pre mid post : List Char,
      d.data = pre ++ sub.data ++ post ∧
      sub.data = '{' :: (mid ++ ['}']) ∧
      (∀ c ∈ pre, c ≠ '{') ∧ (∀ c ∈ mid, c ≠ '}') := by
  unfold extractBrace at h
  cases h1 : d.data.dropWhile (fun c => c != '{') with
  | nil => rw [h1] at h; cases h
  | cons a rest =>
    rw [h1] at h
    dsimp only at h
    cases h2 : rest.dropWhile (fun c => c != '}') with
    | nil => rw [h2] at h; cases h
    | cons b post2 =>
      rw [h2] at h
      obtain ⟨hd1, hpa, hpre⟩ := dropWhile_decomp d.data a rest h1
      obtain ⟨hd2, hpb, hmid⟩ := dropWhile_decomp rest b post2 h2
      have ha : a = '{' := by simpa using hpa
      have hb : b = '}' := by simpa using hpb
      set pre := d.data.takeWhile (fun c => c != '{') with hpredef
      set mid := rest.takeWhile (fun c => c != '}') with hmiddef
      have hsub : sub = String.mk ('{' :: (mid ++ ['}'])) := by
        injection h with hh; exact hh.symm
      refine ⟨pre, mid, post2, ?_, ?_, ?_, ?_⟩
      · rw [hsub]
        show d.data = pre ++ ('{' :: (mid ++ ['}'])) ++ post2
        rw [hd1, ha, hd2, hb]
        simp
      · rw [hsub]
      · intro c hc
        simpa using hpre c hc
      · intro c hc
        simpa using hmid c hc

/-! ## Tokens of the key-value splitter -/

theorem splitRunsAux_no_sep :
    ∀ (fuel : Nat) (cs cur : List Char), (∀ c ∈ cur, isKVSep c = false) →
      ∀ t ∈ splitRunsAux fuel cs cur, ∀ c ∈ t.data, isKVSep c = false := by
  intro fuel
  induction fuel with
  | zero =>
    intro cs cur hcur t ht c hc
    simp only [splitRunsAux, List.mem_singleton] at ht
    subst ht
    exact hcur c (by simpa using hc)
  | succ fuel ih =>
    intro cs cur hcur t ht
    cases cs with
    | nil =>
      simp only [splitRunsAux, List.mem_singleton] at ht
      subst ht
      intro c hc
      exact hcur c (by simpa using hc)
    | cons a rest =>
      by_cases ha : isKVSep a
      · simp only [splitRunsAux, if_pos ha, List.mem_cons] at ht
        rcases ht with rfl | ht2
        · intro c hc
          exact hcur c (by simpa using hc)
        · exact ih _ [] (by intro c hc; cases hc) t ht2
      · simp only [splitRunsAux, if_neg ha, List.mem_cons] at ht
        refine ih rest (a :: cur) ?_ t ht
        intro c hc
        rcases List.mem_cons.mp hc with rfl | hc2
        · simpa using ha
        · exact hcur c hc2

/-- Every token the key-value splitter produces is free of separator
characters. -/
theorem splitRuns_no_sep (s : String) (t : String) (ht : t ∈ splitRuns s) :
    ∀ c ∈ t.data, isKVSep c = false :=
  splitRunsAux_no_sep _ s.data [] (by intro c hc; cases hc) t ht

/-! ## Case analysis of `read_data` -/

theorem read_data_cases (st : MonitorState) (env : Env) (d : Draws)
    (inp : Option (String × Nat)) (now fmt : String) :
    ((read_data st env d inp now fmt).1 = Option.none ∧
      (read_data st env d inp now fmt).2 = st) ∨
    (∃ r, (read_data st env d inp now fmt).1 = some r ∧
      (read_data st env d inp now fmt).2 = st) ∨
    (∃ r, (read_data st env d inp now fmt).1 = some r ∧
      (read_data st env d inp now fmt).2 = { st with latest_data := some r }) := by
  unfold read_data
  by_cases h1 : st.is_connected = false
  · left; simp [h1]
  · rw [if_neg h1]
    by_cases h2 : env.cloud
    · right; left
      exact ⟨getCloudData st d now, by simp [h2], by simp [h2]⟩
    · simp only [h2, Bool.false_eq_true, if_false]
      cases st.serial_connection with
      | none => left; exact ⟨rfl, rfl⟩
      | some conn =>
        cases inp with
        | none => left; exact ⟨rfl, rfl⟩
        | some p =>
          obtain ⟨bytes, n⟩ := p
          by_cases h3 : pyStrip bytes = ""
          · left; simp [h3]
          · simp only [h3, if_neg]
            cases hp : parse_universal_data st.device_info (pyStrip bytes) n fmt now with
            | none => left; simp [h3, hp]
            | some r => right; right; exact ⟨r, by simp [h3, hp], by simp [h3, hp]⟩

/-! ## C1: the Format Detector contract -/

/-- The detector equals the five-way first-match-wins cascade over the four
claim conditions. -/
theorem detect_eq (data : String) :
    detect_data_format data =
      if jsonCond data then "json"
      else if csvCond data then "csv"
      else if kvCond data then "key_value"
      else if binCond data then "binary"
      else "text" := by
  have h1 : ((((strStartsWith data "\x7b" && strEndsWith data "\x7d")
      || (strStartsWith data "[" && strEndsWith data "]"))
      && (jsonLoads data).isSome) = true) ↔ jsonCond data := by
    simp [jsonCond, Bool.and_eq_true, Bool.or_eq_true]
  have h2 : ((strContains data ',' && 2 ≤ (splitChar data ',').length : Bool) = true)
      ↔ csvCond data := by
    simp [csvCond, Bool.and_eq_true]
  have h3 : ((strContains data '=' || strContains data ':') = true) ↔ kvCond data := by
    simp [kvCond, Bool.or_eq_true]
  have h4 : ((data.data.any (fun c =>
      !(c = '\n' || c = '\r' || c = '\t') && (c.toNat < 32 || 126 < c.toNat))) = true)
      ↔ binCond data := by
    unfold binCond
    rw [List.any_eq_true]
    apply exists_congr
    intro c
    constructor
    · rintro ⟨hc, hp⟩
      simp only [Bool.and_eq_true, Bool.not_eq_true', Bool.or_eq_false_iff, Bool.or_eq_true,
        decide_eq_true_eq, decide_eq_false_iff_not] at hp
      exact ⟨hc, by tauto, by tauto⟩
    · rintro ⟨hc, hnot, hrange⟩
      refine ⟨hc, ?_⟩
      simp only [Bool.and_eq_true, Bool.not_eq_true', Bool.or_eq_false_iff, Bool.or_eq_true,
        decide_eq_true_eq, decide_eq_false_iff_not]
      exact ⟨by tauto, by tauto⟩
  unfold detect_data_format
  rw [if_congr h1 rfl (if_congr h2 rfl (if_congr h3 rfl (if_congr h4 rfl rfl)))]

/-- C1: the Format Detector, on a non-empty cleaned line, returns exactly
one of json, csv, key_value, binary, text, deciding in the fixed
first-match-wins order: (1) json when the line is bracket-wrapped and
decodes as JSON, (2) csv when a comma is present and comma-splitting yields
at least two fields, (3) key_value on an equals sign or colon, (4) binary
when a character other than newline, carriage return or tab falls outside
printable ASCII 32..126, (5) text otherwise; in particular every line of
valid JSON object syntax, commas included, classifies as json and never as
csv. -/
theorem C1_format_detector (data : String) (_hne : data ≠ "") :
    detect_data_format data ∈ (["json", "csv", "key_value", "binary", "text"] : List String) ∧
    (detect_data_format data = "json" ↔ jsonCond data) ∧
    (detect_data_format data = "csv" ↔ ¬jsonCond data ∧ csvCond data) ∧
    (detect_data_format data = "key_value" ↔ ¬jsonCond data ∧ ¬csvCond data ∧ kvCond data) ∧
    (detect_data_format data = "binary" ↔
      ¬jsonCond data ∧ ¬csvCond data ∧ ¬kvCond data ∧ binCond data) ∧
    (detect_data_format data = "text" ↔
      ¬jsonCond data ∧ ¬csvCond data ∧ ¬kvCond data ∧ ¬binCond data) ∧
    (strStartsWith data "\x7b" = true → strEndsWith data "\x7d" = true →
      (jsonLoads data).isSome = true →
      detect_data_format data = "json" ∧ detect_data_format data ≠ "csv") := by
  have hprec : strStartsWith data "\x7b" = true → strEndsWith data "\x7d" = true →
      (jsonLoads data).isSome = true →
      detect_data_format data = "json" ∧ detect_data_format data ≠ "csv" := by
    intro h1 h2 h3
    have hj : jsonCond data := ⟨Or.inl ⟨h1, h2⟩, h3⟩
    rw [detect_eq, if_pos hj]
    exact ⟨rfl, by decide⟩
  refine ⟨?_, ?_, ?_, ?_, ?_, ?_, hprec⟩ <;> rw [detect_eq] <;>
    by_cases hj : jsonCond data <;> by_cases hc : csvCond data <;>
    by_cases hk : kvCond data <;> by_cases hb : binCond data <;>
    simp [hj, hc, hk, hb]

/-- Witness for C1 at the claim instance: a valid JSON object containing
commas classifies as json, not csv, and a plain comma line classifies as
csv. -/
theorem C1_format_detector_witness :
    detect_data_format "\x7b\"a\":1,\"b\":2\x7d" = "json" ∧
    detect_data_format "\x7b\"a\":1,\"b\":2\x7d" ≠ "csv" ∧
    detect_data_format "a,b,c" = "csv" := by
  have h := C1_format_detector "\x7b\"a\":1,\"b\":2\x7d" (by decide)
  have h2 := C1_format_detector "a,b,c" (by decide)
  refine ⟨(h.2.2.2.2.2.2 rfl rfl rfl).1, (h.2.2.2.2.2.2 rfl rfl rfl).2, ?_⟩
  exact (h2.2.2.1).mpr ⟨by decide, by decide⟩

/-- C4: the JSON parser first attempts a full-line decode; on failure it
decodes the first single-level brace substring (a first brace-free prefix,
an interior with no closing brace — so no nested-brace handling); when that
fails too it returns no structured result, and being a total function into
`Option` it never raises to the caller. -/
theorem C4_json_parsing :
    (∀ d v, jsonLoads d = some v → parse_json_data d = some v) ∧
    (∀ d, jsonLoads d = Option.none →
      parse_json_data d = (extractBrace d).bind jsonLoads) ∧
    (∀ d sub, extractBrace d = some sub →
      ∃ pre mid post : List Char,
        d.data = pre ++ sub.data ++ post ∧
        sub.data = '{' :: (mid ++ ['}']) ∧
        (∀ c ∈ pre, c ≠ '{') ∧ (∀ c ∈ mid, c ≠ '}')) ∧
    parse_json_data "noise \x7b\"a\": 1\x7d tail" = some (PyVal.dict [("a", PyVal.int 1)]) ∧
    parse_json_data "pre \x7b\"a\": \x7b\"b\": 1\x7d\x7d" = Option.none := by
  refine ⟨?_, ?_, extractBrace_decomp, rfl, rfl⟩
  · intro d v h
    unfold parse_json_data
    rw [h]
  · intro d h
    unfold parse_json_data
    rw [h]
    cases hb : extractBrace d <;> simp [hb]

/-- Witness for C4: the full-line branch and the extraction branch at
concrete inputs. -/
theorem C4_json_parsing_witness :
    parse_json_data "\x7b\"a\": 2\x7d" = some (PyVal.dict [("a", PyVal.int 2)]) ∧
    parse_json_data "x \x7b\"k\": 3\x7d y" = (extractBrace "x \x7b\"k\": 3\x7d y").bind jsonLoads :=
  ⟨C4_json_parsing.1 _ _ rfl, C4_json_parsing.2.1 _ rfl⟩

/-- Every character of a StringIO line comes from the input or is the
terminating line feed. -/
theorem sioLinesAux_chars :
    ∀ (cs cur : List Char), ∀ l ∈ sioLinesAux cs cur, ∀ c ∈ l,
      c = '\n' ∨ c ∈ cs ∨ c ∈ cur := by
  intro cs
  induction cs with
  | nil =>
    intro cur l hl c hc
    by_cases h : cur.isEmpty
    · simp [sioLinesAux, h] at hl
    · simp only [sioLinesAux, h, Bool.false_eq_true, if_false, List.mem_singleton] at hl
      subst hl
      exact Or.inr (Or.inr (by simpa using hc))
  | cons a rest ih =>
    intro cur l hl c hc
    by_cases ha : a = '\n'
    · rw [show sioLinesAux (a :: rest) cur = (cur.reverse ++ ['\n']) :: sioLinesAux rest []
        from by simp [sioLinesAux, ha]] at hl
      rcases List.mem_cons.mp hl with h0 | hl2
      · subst h0
        rcases List.mem_append.mp hc with h1 | h2
        · exact Or.inr (Or.inr (by simpa using h1))
        · exact Or.inl (by simpa using h2)
      · rcases ih [] l hl2 c hc with h1 | h2 | h3
        · exact Or.inl h1
        · exact Or.inr (Or.inl (List.mem_cons_of_mem _ h2))
        · cases h3
    · rw [show sioLinesAux (a :: rest) cur = sioLinesAux rest (a :: cur) from by
        simp [sioLinesAux, ha]] at hl
      rcases ih (a :: cur) l hl c hc with h1 | h2 | h3
      · exact Or.inl h1
      · exact Or.inr (Or.inl (List.mem_cons_of_mem _ h2))
      · rcases List.mem_cons.mp h3 with h4 | h4
        · subst h4
          exact Or.inr (Or.inl (List.mem_cons_self _ _))
        · exact Or.inr (Or.inr h4)

/-- A line without a carriage return never raises the reader error. -/
theorem csvRecord_no_cr (line : List Char) (h : ∀ c ∈ line, c ≠ '\r') :
    ∃ rec, csvRecord line = some rec := by
  have htail : (line.takeWhile (fun c => c != '\n')).dropWhile (fun c => c != '\r') = [] := by
    rw [List.dropWhile_eq_nil_iff]
    intro c hc
    have hcl : c ∈ line := (List.takeWhile_sublist _).subset hc
    simpa using h c hcl
  simp only [csvRecord, htail, List.all_nil, if_true]
  exact ⟨_, rfl⟩

theorem csvRecords_all_some :
    ∀ ls : List (List Char), (∀ l ∈ ls, ∃ rec, csvRecord l = some rec) →
      ∃ rows, csvRecords ls = some rows := by
  intro ls
  induction ls with
  | nil => intro _; exact ⟨[], rfl⟩
  | cons l rest ih =>
    intro h
    obtain ⟨rec, hrec⟩ := h l (List.mem_cons_self _ _)
    obtain ⟨rows, hrows⟩ := ih (fun l2 hl2 => h l2 (List.mem_cons_of_mem _ hl2))
    exact ⟨rec :: rows, by simp [csvRecords, hrec, hrows]⟩

/-- C5 fails as stated: additional rows are not merely ignored — a bare
carriage return in a third row makes the csv reader raise, the handler
catches the error, and the parser returns no result instead of the zip of
the first two rows that the claim promises. -/
theorem C5_counterexample :
    parse_csv_data "a,b\n1,2\nx\ry" = Option.none ∧
    ¬ parse_csv_data "a,b\n1,2\nx\ry"
        = some [("a", PyVal.str "1"), ("b", PyVal.str "2")] := by
  refine ⟨rfl, ?_⟩
  intro h
  cases h

/-- C5 (amended): the CSV parser hands the line to the csv reader, whose
rows end at line feeds or CRLF breaks; with at least two rows it returns
row 0 zipped with row 1 position by position, every further well-formed
row ignored; with fewer than two rows it returns no result; and a bare
carriage return not ending its line raises the reader error, which the
parser reports as no result — wherever in the input it occurs.  An input
without carriage returns never raises. -/
theorem C5_csv_parsing :
    (∀ s h v rest, csvRows s = some (h :: v :: rest) →
      parse_csv_data s = some (zipDict h v)) ∧
    (∀ s rows, csvRows s = some rows → rows.length < 2 →
      parse_csv_data s = Option.none) ∧
    (∀ s, csvRows s = Option.none → parse_csv_data s = Option.none) ∧
    (∀ s, strContains s '\r' = false → ∃ rows, csvRows s = some rows) ∧
    parse_csv_data "temp,hum\n21,55" =
      some [("temp", PyVal.str "21"), ("hum", PyVal.str "55")] ∧
    parse_csv_data "a,b\r\n1,2" = some [("a", PyVal.str "1"), ("b", PyVal.str "2")] ∧
    parse_csv_data "a,b\n1,2\n3,4" = some [("a", PyVal.str "1"), ("b", PyVal.str "2")] ∧
    parse_csv_data "a,b" = Option.none ∧
    parse_csv_data "a,b\r1,2" = Option.none := by
  refine ⟨?_, ?_, ?_, ?_, rfl, rfl, rfl, rfl, rfl⟩
  · intro s h v rest hr
    unfold parse_csv_data
    rw [hr]
  · intro s rows hr hlen
    unfold parse_csv_data
    rw [hr]
    cases rows with
    | nil => rfl
    | cons a tl =>
      cases tl with
      | nil => rfl
      | cons b tl2 =>
        simp only [List.length_cons] at hlen
        omega
  · intro s hr
    unfold parse_csv_data
    rw [hr]
  · intro s hcr
    apply csvRecords_all_some
    intro l hl
    apply csvRecord_no_cr
    intro c hc
    rcases sioLinesAux_chars s.data [] l hl c hc with h1 | h2 | h3
    · subst h1; decide
    · intro hceq
      subst hceq
      have : strContains s '\r' = true := by
        unfold strContains
        rw [List.any_eq_true]
        exact ⟨'\r', h2, by simp⟩
      rw [hcr] at this
      cases this
    · cases h3

/-- Witness for C5 (amended): the zip at the claim instance, the reader
error on a bare carriage return, and the single-row failure. -/
theorem C5_csv_parsing_witness :
    parse_csv_data "temp,hum\n21,55" = some (zipDict ["temp", "hum"] ["21", "55"]) ∧
    parse_csv_data "a,b\r1,2" = Option.none ∧
    parse_csv_data "solo" = Option.none := by
  refine ⟨C5_csv_parsing.1 _ ["temp", "hum"] ["21", "55"] [] rfl,
    C5_csv_parsing.2.2.1 _ rfl,
    C5_csv_parsing.2.1 "solo" [["solo"]] rfl (by decide)⟩

/-- C6: the key-value parser splits the whole line on runs of comma,
semicolon, newline, carriage return or tab (no token retains a separator);
each token splits at its first equals sign, else at its first colon, with
both sides stripped; an empty mapping yields no result, and the equals and
colon forms of the claim instance coincide. -/
theorem C6_kv_parsing :
    (∀ s t, t ∈ splitRuns s → ∀ c ∈ t.data, isKVSep c = false) ∧
    (∀ s, parse_key_value_data s = Option.none ↔ (kvAccum (splitRuns s)).isEmpty = true) ∧
    (∀ s, parse_key_value_data s ≠ Option.none →
      parse_key_value_data s = some (kvAccum (splitRuns s))) ∧
    parse_key_value_data "volt=3.7,amp=1.2" =
      some [("volt", PyVal.str "3.7"), ("amp", PyVal.str "1.2")] ∧
    parse_key_value_data "volt:3.7,amp:1.2" =
      some [("volt", PyVal.str "3.7"), ("amp", PyVal.str "1.2")] ∧
    parse_key_value_data "a=b=c" = some [("a", PyVal.str "b=c")] ∧
    parse_key_value_data "a:b=c" = some [("a:b", PyVal.str "c")] ∧
    parse_key_value_data " volt = 3.7 ;\tamp = 1.2 " =
      some [("volt", PyVal.str "3.7"), ("amp", PyVal.str "1.2")] ∧
    parse_key_value_data "hello" = Option.none := by
  refine ⟨splitRuns_no_sep, ?_, ?_, rfl, rfl, rfl, rfl, rfl, rfl⟩
  · intro s
    unfold parse_key_value_data
    cases h : (kvAccum (splitRuns s)).isEmpty <;> simp [h]
  · intro s h
    unfold parse_key_value_data at h ⊢
    cases hh : (kvAccum (splitRuns s)).isEmpty <;> simp [hh] at h ⊢

/-- Witness for C6: the none-iff and the accumulated mapping at concrete
inputs. -/
theorem C6_kv_parsing_witness :
    parse_key_value_data "no separators here" = Option.none ∧
    parse_key_value_data "volt=3.7,amp=1.2" =
      some (kvAccum (splitRuns "volt=3.7,amp=1.2")) := by
  refine ⟨(C6_kv_parsing.2.1 "no separators here").mpr rfl, ?_⟩
  exact C6_kv_parsing.2.2.1 _ (fun h => absurd ((C6_kv_parsing.2.1 _).mp h) (by decide))

/-- C2 is false as stated: with input holding both a temp key whose text
value has a non-empty, non-numeric residue (here the single minus sign) and
a temperature key, the exception arm of the scan stores the temp value but
does not break, so the later temperature alias overwrites the kind — the
alias checked first does not win. -/
theorem C2_counterexample :
    dictGet (extract_sensor_data [("temp", PyVal.str "-"), ("temperature", PyVal.int 25)])
        "temperature" = some (PyVal.int 25) ∧
    ¬ dictGet (extract_sensor_data [("temp", PyVal.str "-"), ("temperature", PyVal.int 25)])
        "temperature" = some (PyVal.str "-") := by
  refine ⟨rfl, ?_⟩
  intro h
  have h2 : PyVal.int 25 = PyVal.str "-" := Option.some.inj h
  cases h2

/-- C2 (amended): for every Parsed Reading and canonical kind the output at
that kind is the priority scan over the fixed alias list, in which the
first present alias wins and scanning stops — provided its value is handled
without an exception; an alias whose conversion raises stores its original
value but scanning continues, so a later alias may overwrite it.  When the
input holds both temp and temperature and the temp value coerces cleanly,
temp (checked first) wins and the record holds exactly one temperature
entry. -/
theorem C2_alias_priority :
    (∀ parsed kind aliases, (kind, aliases) ∈ field_mappings →
      dictGet (extract_sensor_data parsed) kind = scanValue parsed Option.none aliases) ∧
    (∀ parsed (pre : List String) a (post : List String) v w,
      (∀ b ∈ pre, dictGet parsed b = Option.none) →
      dictGet parsed a = some v → coerceValue v = some w →
      scanValue parsed Option.none (pre ++ a :: post) = some w) ∧
    (∀ parsed v w, dictGet parsed "temp" = some v → coerceValue v = some w →
      dictGet (extract_sensor_data parsed) "temperature" = some w ∧
      keyCount (extract_sensor_data parsed) "temperature" = 1) := by
  refine ⟨fun parsed kind aliases hmem => extract_get parsed kind aliases hmem, ?_, ?_⟩
  · intro parsed pre a post v w hpre hv hw
    rw [scanValue_append_none parsed _ _ pre hpre]
    simp [scanValue, hv, hw]
  · intro parsed v w hv hw
    have h1 := extract_get parsed "temperature"
      ["temp", "temperature", "celsius", "fahrenheit", "c", "f"] (by decide)
    have h2 : dictGet (extract_sensor_data parsed) "temperature" = some w := by
      rw [h1]
      simp [scanValue, hv, hw]
    refine ⟨h2, ?_⟩
    have hle := extract_count_le_one parsed "temperature"
    have h0 : keyCount (extract_sensor_data parsed) "temperature" ≠ 0 := by
      intro hz
      rw [(keyCount_eq_zero_iff_get_none _ _).mp hz] at h2
      cases h2
    omega

/-- Witness for C2 (amended) at the claim instance: temp and temperature
both present with cleanly coercing values — temp wins and the kind appears
exactly once. -/
theorem C2_alias_priority_witness :
    dictGet (extract_sensor_data [("temp", PyVal.int 21), ("temperature", PyVal.int 99)])
      "temperature" = some (PyVal.int 21) ∧
    keyCount (extract_sensor_data [("temp", PyVal.int 21), ("temperature", PyVal.int 99)])
      "temperature" = 1 :=
  C2_alias_priority.2.2 _ (PyVal.int 21) (PyVal.int 21) rfl rfl

/-- C3 is false as stated: the code keeps every minus sign, not only a
leading one.  On voltage "5V-" the claim rule strips the non-leading minus,
leaving the valid residue 5 and a numeric result, but the code keeps "5-",
whose conversion raises, so the original text is retained. -/
theorem C3_counterexample :
    dictGet (extract_sensor_data [("voltage", PyVal.str "5V-")]) "voltage"
        = some (PyVal.str "5V-") ∧
    ¬ dictGet (extract_sensor_data [("voltage", PyVal.str "5V-")]) "voltage"
        = some (PyVal.float 5) := by
  refine ⟨rfl, ?_⟩
  intro h
  have h2 : PyVal.str "5V-" = PyVal.float 5 := Option.some.inj h
  cases h2

/-- C3 (amended): already-numeric values are copied as they are; a text
value is stripped of every character that is not a digit, a decimal point
or a minus sign (minus signs are kept wherever they occur); a non-empty
residue that is a valid float becomes that number; an empty residue keeps
the text unchanged; a non-empty residue that is not a valid float raises,
and the original text is retained in the record.  Field voltage "3.7V"
yields 3.7 and field voltage "abc" is kept unchanged. -/
theorem C3_numeric_coercion :
    (∀ n : Int, coerceValue (PyVal.int n) = some (PyVal.int n)) ∧
    (∀ q : Rat, coerceValue (PyVal.float q) = some (PyVal.float q)) ∧
    (∀ s, stripNum s = "" → coerceValue (PyVal.str s) = some (PyVal.str s)) ∧
    (∀ s q, pyFloat (stripNum s) = some q → stripNum s ≠ "" →
      coerceValue (PyVal.str s) = some (PyVal.float q)) ∧
    (∀ s, stripNum s ≠ "" → pyFloat (stripNum s) = Option.none →
      coerceValue (PyVal.str s) = Option.none ∧
      dictGet (extract_sensor_data [("voltage", PyVal.str s)]) "voltage"
        = some (PyVal.str s)) ∧
    dictGet (extract_sensor_data [("voltage", PyVal.str "3.7V")]) "voltage"
      = some (PyVal.float (37/10)) ∧
    dictGet (extract_sensor_data [("voltage", PyVal.str "abc")]) "voltage"
      = some (PyVal.str "abc") := by
  refine ⟨fun n => rfl, fun q => rfl, ?_, ?_, ?_, by with_unfolding_all rfl, rfl⟩
  · intro s h
    simp [coerceValue, h]
  · intro s q hq hne
    simp [coerceValue, hne, hq]
  · intro s hne hnone
    have hc : coerceValue (PyVal.str s) = Option.none := by
      simp [coerceValue, hne, hnone]
    refine ⟨hc, ?_⟩
    rw [extract_get _ "voltage" ["voltage", "volt", "v", "battery_v", "volts"] (by decide)]
    simp [scanValue, dictGet, hc]

/-- Witness for C3 (amended): the raising residue "5-" of "5V-" retains the
original text, and "3.7V" coerces to 3.7. -/
theorem C3_numeric_coercion_witness :
    coerceValue (PyVal.str "5V-") = Option.none ∧
    dictGet (extract_sensor_data [("voltage", PyVal.str "5V-")]) "voltage"
      = some (PyVal.str "5V-") ∧
    coerceValue (PyVal.str "3.7V") = some (PyVal.float (37/10)) := by
  have h1 := C3_numeric_coercion.2.2.2.2.1 "5V-" (by decide) rfl
  have h2 := C3_numeric_coercion.2.2.2.1 "3.7V" (37/10)
    (by with_unfolding_all rfl) (by decide)
  exact ⟨h1.1, h1.2, h2⟩

/-- C7: GET /data returns a 400 client error when not connected; when
connected it attempts one read and serves a fresh Data Response, falls back
to the stored latest data when the read yields nothing, and falls back
further to the informational no-data payload when no latest data exists —
and since that path leaves the state unchanged, the payload repeats on a
second no-yield call. -/
theorem C7_get_data :
    (∀ st env d inp now fmt, st.is_connected = false →
      get_usb_data st env d inp now fmt =
        (DataApiResult.clientError 400
          "No device connected. Use /auto-detect or /connect first.", st)) ∧
    (∀ st env d inp now fmt r st2, st.is_connected = true →
      read_data st env d inp now fmt = (some r, st2) →
      get_usb_data st env d inp now fmt = (DataApiResult.ok r, st2)) ∧
    (∀ st env d inp now fmt l, st.is_connected = true →
      read_data st env d inp now fmt = (Option.none, st) → st.latest_data = some l →
      get_usb_data st env d inp now fmt = (DataApiResult.ok l, st)) ∧
    (∀ st env d inp now fmt, st.is_connected = true →
      read_data st env d inp now fmt = (Option.none, st) → st.latest_data = Option.none →
      get_usb_data st env d inp now fmt = (DataApiResult.noData now st.device_info, st)) ∧
    (∀ st env d1 d2 inp1 inp2 now1 now2 fmt1 fmt2, st.is_connected = true →
      read_data st env d1 inp1 now1 fmt1 = (Option.none, st) →
      read_data st env d2 inp2 now2 fmt2 = (Option.none, st) →
      st.latest_data = Option.none →
      (get_usb_data st env d1 inp1 now1 fmt1).1 = DataApiResult.noData now1 st.device_info ∧
      (get_usb_data (get_usb_data st env d1 inp1 now1 fmt1).2 env d2 inp2 now2 fmt2).1
        = DataApiResult.noData now2 st.device_info) := by
  refine ⟨?_, ?_, ?_, ?_, ?_⟩
  · intro st env d inp now fmt h
    simp [get_usb_data, h]
  · intro st env d inp now fmt r st2 h hr
    simp [get_usb_data, h, hr]
  · intro st env d inp now fmt l h hr hl
    simp [get_usb_data, h, hr, hl]
  · intro st env d inp now fmt h hr hl
    simp [get_usb_data, h, hr, hl]
  · intro st env d1 d2 inp1 inp2 now1 now2 fmt1 fmt2 h hr1 hr2 hl
    have e1 : get_usb_data st env d1 inp1 now1 fmt1
        = (DataApiResult.noData now1 st.device_info, st) := by
      simp [get_usb_data, h, hr1, hl]
    have e2 : get_usb_data st env d2 inp2 now2 fmt2
        = (DataApiResult.noData now2 st.device_info, st) := by
      simp [get_usb_data, h, hr2, hl]
    constructor
    · rw [e1]
    · rw [e1]
      show (get_usb_data st env d2 inp2 now2 fmt2).1 = _
      rw [e2]

/-- Witness for C7: the client error before any connect, the repeating
no-data payload on a connected monitor with nothing to read, and the
latest-data fallback. -/
theorem C7_get_data_witness :
    get_usb_data initState envSerial draws0 Option.none "T0" "auto" =
      (DataApiResult.clientError 400
        "No device connected. Use /auto-detect or /connect first.", initState) ∧
    (get_usb_data stConnNoSerial envSerial draws0 Option.none "T5" "auto").1
      = DataApiResult.noData "T5" stConnNoSerial.device_info ∧
    (get_usb_data (get_usb_data stConnNoSerial envSerial draws0 Option.none "T5" "auto").2
        envSerial draws0 Option.none "T6" "auto").1
      = DataApiResult.noData "T6" stConnNoSerial.device_info ∧
    get_usb_data stSerialWithLatest envSerial draws0 Option.none "T2" "auto"
      = (DataApiResult.ok sampleResponse, stSerialWithLatest) := by
  have h1 := C7_get_data.1 initState envSerial draws0 Option.none "T0" "auto" rfl
  have h5 := C7_get_data.2.2.2.2 stConnNoSerial envSerial draws0 draws0 Option.none Option.none
    "T5" "T6" "auto" "auto" rfl rfl rfl rfl
  have h3 := C7_get_data.2.2.1 stSerialWithLatest envSerial draws0 Option.none "T2" "auto"
    sampleResponse rfl rfl rfl
  exact ⟨h1, h5.1, h5.2, h3⟩

/-- C10: a read that produces no data leaves the whole state — the stored
latest data included — unchanged, and the latest-data slot changes only
when the call returns the very response stored into it. -/
theorem C10_latest_preserved :
    ∀ st env d inp now fmt,
      ((read_data st env d inp now fmt).1 = Option.none →
        (read_data st env d inp now fmt).2 = st) ∧
      ((read_data st env d inp now fmt).2.latest_data ≠ st.latest_data →
        ∃ r, (read_data st env d inp now fmt).1 = some r ∧
          (read_data st env d inp now fmt).2.latest_data = some r) := by
  intro st env d inp now fmt
  rcases read_data_cases st env d inp now fmt with ⟨_, h2⟩ | ⟨r, h1, h2⟩ | ⟨r, h1, h2⟩
  · exact ⟨fun _ => h2, fun hch => absurd (by rw [h2]) hch⟩
  · exact ⟨fun _ => h2, fun hch => absurd (by rw [h2]) hch⟩
  · refine ⟨fun hn => ?_, fun _ => ⟨r, h1, ?_⟩⟩
    · rw [h1] at hn; cases hn
    · rw [h2]

/-- Witness for C10: a no-data read leaves the state alone, and a
successful read stores exactly the returned response. -/
theorem C10_latest_preserved_witness :
    (read_data stConnNoSerial envSerial draws0 Option.none "T0" "auto").2 = stConnNoSerial ∧
    (∃ r, (read_data stSerialConnected envSerial draws0 (some ("a=1", 3)) "T1" "auto").1
        = some r ∧
      (read_data stSerialConnected envSerial draws0 (some ("a=1", 3)) "T1" "auto").2.latest_data
        = some r) := by
  refine ⟨(C10_latest_preserved stConnNoSerial envSerial draws0 Option.none "T0" "auto").1 rfl,
    (C10_latest_preserved stSerialConnected envSerial draws0 (some ("a=1", 3)) "T1" "auto").2 ?_⟩
  intro h
  rw [show (read_data stSerialConnected envSerial draws0 (some ("a=1", 3)) "T1"
      "auto").2.latest_data = some sampleResponse from rfl,
    show stSerialConnected.latest_data = Option.none from rfl] at h
  cases h

/-- C8 fails on the code (code bug): in the cloud-connected state there is
no serial transport, so disconnect is a complete no-op — the monitor stays
connected with its metadata — while POST /disconnect still answers with the
success payload; and even a real serial disconnect never clears the stored
latest data.  Only the already-disconnected no-op part of the claim holds. -/
theorem C8_disconnect_bug :
    disconnect stCloudConnected = stCloudConnected ∧
    stCloudConnected.is_connected = true ∧
    (disconnect_device stCloudConnected).1
      = DisconnectApiResult.success stCloudConnected.device_info ∧
    (disconnect_device stCloudConnected).2.is_connected = true ∧
    (disconnect stSerialWithLatest).is_connected = false ∧
    (disconnect stSerialWithLatest).device_info = [] ∧
    (disconnect stSerialWithLatest).latest_data = some sampleResponse ∧
    disconnect initState = initState ∧
    disconnect (disconnect stSerialWithLatest) = disconnect stSerialWithLatest := by
  exact ⟨rfl, rfl, rfl, rfl, rfl, rfl, rfl, rfl, rfl⟩

/-- C9 fails as stated: the end-to-end cloud flow does produce a json-typed
Data Response with bounded values, but they sit under the key
battery_voltage — the sensor-data mapping holds no "voltage" key, so the
claimed `sensor_data.voltage` does not exist. -/
theorem C9_counterexample :
    (get_usb_data (handle_usb_inserted initState envCloud "T0").2 envCloud draws0
        Option.none "T1" "auto").1
      = DataApiResult.ok
          (getCloudData (handle_usb_inserted initState envCloud "T0").2 draws0 "T1") ∧
    (getCloudData (handle_usb_inserted initState envCloud "T0").2 draws0 "T1").data_type
      = "json" ∧
    ((getCloudData (handle_usb_inserted initState envCloud "T0").2 draws0 "T1").sensor_data.bind
        (fun sd => dictGet sd "voltage")) = Option.none := by
  exact ⟨rfl, rfl, rfl⟩

/-- C9 (amended): in cloud mode every read yields the json-typed Data
Response rendered from the structured cloud payload, whose values are
bounded — temperature in [20,35], humidity in [40,80], pressure in
[980,1020], battery voltage (key battery_voltage) in [3.2,4.2], signal
strength in [-80,-30]; end-to-end, POST /usb-inserted connects to the first
cloud device and GET /data returns that fresh json Data Response. -/
theorem C9_cloud_data (st0 : MonitorState) (env : Env) (d : Draws) (now now2 fmt : String)
    (hc : env.cloud = true) :
    (handle_usb_inserted st0 env now).1 = InsertedStatus.connected cloudDevice1 ∧
    (handle_usb_inserted st0 env now).2.is_connected = true ∧
    (get_usb_data (handle_usb_inserted st0 env now).2 env d Option.none now2 fmt).1
      = DataApiResult.ok (getCloudData (handle_usb_inserted st0 env now).2 d now2) ∧
    (∀ st : MonitorState,
      (getCloudData st d now2).data_type = "json" ∧
      (getCloudData st d now2).raw_data = jsonDumps (PyVal.dict (cloudDict d now2)) ∧
      (getCloudData st d now2).formatted_data = some (cloudDict d now2) ∧
      (getCloudData st d now2).sensor_data = some (cloudDict d now2)) ∧
    (∃ t, dictGet (cloudDict d now2) "temperature" = some (PyVal.float t) ∧
      20 ≤ t ∧ t ≤ 35) ∧
    (∃ h2, dictGet (cloudDict d now2) "humidity" = some (PyVal.float h2) ∧
      40 ≤ h2 ∧ h2 ≤ 80) ∧
    (∃ p, dictGet (cloudDict d now2) "pressure" = some (PyVal.float p) ∧
      980 ≤ p ∧ p ≤ 1020) ∧
    (∃ v, dictGet (cloudDict d now2) "battery_voltage" = some (PyVal.float v) ∧
      32/10 ≤ v ∧ v ≤ 42/10) ∧
    (∃ sg, dictGet (cloudDict d now2) "signal_strength" = some (PyVal.int sg) ∧
      -80 ≤ sg ∧ sg ≤ -30) := by
  have hdevs : get_available_devices env = cloudDevices := by
    simp [get_available_devices, hc]
  have hh : handle_usb_inserted st0 env now =
      (InsertedStatus.connected cloudDevice1,
       (connect_cloud_device (if st0.is_connected then disconnect st0 else st0)
          "/dev/cloud/cp2102" (some 115200) now).2) := by
    unfold handle_usb_inserted
    rw [hdevs]
    show (if cloudDevices.isEmpty = true then _ else _) = _
    rw [if_neg (by decide)]
    rw [show cloudDevices.find? (fun dv => !dv.is_connected) = some cloudDevice1 from rfl]
    unfold connect_to_device
    rw [hc]
    rfl
  have hst2 : (handle_usb_inserted st0 env now).2.is_connected = true := by
    rw [hh]
    rfl
  refine ⟨by rw [hh], hst2, ?_, fun st => ⟨rfl, rfl, rfl, rfl⟩, ?_, ?_, ?_, ?_, ?_⟩
  · simp [get_usb_data, read_data, hst2, hc]
  · exact ⟨round2 (uniform 20 35 d.u1), by simp [cloudDict, dictGet],
      (round2_uniform_mem 20 35 d.u1 2000 3500 (by norm_num) (by norm_num) (by norm_num)).1,
      (round2_uniform_mem 20 35 d.u1 2000 3500 (by norm_num) (by norm_num) (by norm_num)).2⟩
  · exact ⟨round2 (uniform 40 80 d.u2), by simp [cloudDict, dictGet],
      (round2_uniform_mem 40 80 d.u2 4000 8000 (by norm_num) (by norm_num) (by norm_num)).1,
      (round2_uniform_mem 40 80 d.u2 4000 8000 (by norm_num) (by norm_num) (by norm_num)).2⟩
  · exact ⟨round2 (uniform 980 1020 d.u3), by simp [cloudDict, dictGet],
      (round2_uniform_mem 980 1020 d.u3 98000 102000
        (by norm_num) (by norm_num) (by norm_num)).1,
      (round2_uniform_mem 980 1020 d.u3 98000 102000
        (by norm_num) (by norm_num) (by norm_num)).2⟩
  · exact ⟨round2 (uniform (32/10) (42/10) d.u4), by simp [cloudDict, dictGet],
      (round2_uniform_mem (32/10) (42/10) d.u4 320 420
        (by norm_num) (by norm_num) (by norm_num)).1,
      (round2_uniform_mem (32/10) (42/10) d.u4 320 420
        (by norm_num) (by norm_num) (by norm_num)).2⟩
  · exact ⟨randint (-80) (-30) d.s5, by simp [cloudDict, dictGet],
      (randint_mem (-80) (-30) d.s5 (by norm_num)).1,
      (randint_mem (-80) (-30) d.s5 (by norm_num)).2⟩

/-- Witness for C9 (amended) at a concrete cloud environment and draw. -/
theorem C9_cloud_data_witness :
    (handle_usb_inserted initState envCloud "T0").1 = InsertedStatus.connected cloudDevice1 ∧
    (∃ t, dictGet (cloudDict draws0 "T1") "temperature" = some (PyVal.float t) ∧
      20 ≤ t ∧ t ≤ 35) ∧
    (∃ v, dictGet (cloudDict draws0 "T1") "battery_voltage" = some (PyVal.float v) ∧
      32/10 ≤ v ∧ v ≤ 42/10) := by
  have h := C9_cloud_data initState envCloud draws0 "T0" "T1" "auto" rfl
  exact ⟨h.1, h.2.2.2.2.1, h.2.2.2.2.2.2.2.1⟩
